import Mathlib

/-
  Verification of the worker-registry / command-router core of the
  claudecode-telegram bridge (src/bridge.py) against its specification.

  The Python program is shallowly embedded as pure Lean functions over an
  explicit system state.  External observations (the tmux session list, the
  result of process-name checks, whether `tmux send-keys` succeeds, whether an
  exec adapter script exists, the on-disk session files and named pipes, and
  the current clock) are fields of `SysState`; every operation of the program
  is a function from states to states and results, translated line by line
  from src/bridge.py.  Filesystem directories keyed by worker name become
  association lists; Python dict insertion keeps the first-insertion position,
  which `dictInsert` reproduces.  Python truthiness of strings and optional
  values is modelled explicitly (`pyTruthy`).
-/

-- ─────────────────────────────────────────────────────────────────────
-- Association-list helpers (model of Python dicts and per-name files)
-- ─────────────────────────────────────────────────────────────────────

/-- Lookup of a key in an association list (Python `d.get(k)` / file-exists check). -/
def lookupKey {α : Type} : List (String × α) → String → Option α
  | [], _ => none
  | (k, v) :: rest, n => if k = n then some v else lookupKey rest n

/-- Python dict assignment `d[k] = v`: replaces in place, keeps first-insertion order. -/
def dictInsert {α : Type} : List (String × α) → String → α → List (String × α)
  | [], k, v => [(k, v)]
  | (k1, v1) :: rest, k, v =>
      if k1 = k then (k1, v) :: rest else (k1, v1) :: dictInsert rest k v

/-- Deleting the entry of a key (Python `path.unlink()` for a per-name file). -/
def eraseKey {α : Type} (l : List (String × α)) (k : String) : List (String × α) :=
  l.filter (fun p => p.1 ≠ k)

/-- Number of entries stored under a key. -/
def countKey {α : Type} (l : List (String × α)) (k : String) : Nat :=
  (l.filter (fun p => p.1 = k)).length

/-- The keys of an association list. -/
def keysOf {α : Type} (l : List (String × α)) : List String :=
  l.map Prod.fst

/-- Python truthiness of an optional string: `None` and `""` are falsy. -/
def pyTruthy : Option String → Bool
  | some s => s ≠ ""
  | none => false

theorem lookupKey_dictInsert_self {α : Type} (l : List (String × α)) (k : String) (v : α) :
    lookupKey (dictInsert l k v) k = some v := by
  induction l with
  | nil => simp [dictInsert, lookupKey]
  | cons p rest ih =>
      by_cases h : p.1 = k
      · simp [dictInsert, lookupKey, h]
      · simp [dictInsert, lookupKey, h, ih]

theorem lookupKey_eraseKey_self {α : Type} (l : List (String × α)) (k : String) :
    lookupKey (eraseKey l k) k = none := by
  induction l with
  | nil => simp [eraseKey, lookupKey]
  | cons p rest ih =>
      by_cases h : p.1 = k
      · simpa [eraseKey, lookupKey, h] using ih
      · simpa [eraseKey, lookupKey, h] using ih

theorem lookupKey_append_single_self {α : Type} (l : List (String × α)) (k : String) (v : α)
    (h : lookupKey l k = none) : lookupKey (l ++ [(k, v)]) k = some v := by
  induction l with
  | nil => simp [lookupKey]
  | cons p rest ih =>
      by_cases hk : p.1 = k
      · simp [lookupKey, hk] at h
      · simp [lookupKey, hk] at h ⊢
        exact ih h

theorem lookupKey_none_iff_notMemKeys {α : Type} (l : List (String × α)) (k : String) :
    lookupKey l k = none ↔ k ∉ keysOf l := by
  induction l with
  | nil => simp [lookupKey, keysOf]
  | cons p rest ih =>
      by_cases hk : p.1 = k
      · simp [lookupKey, hk, keysOf]
      · simp [lookupKey, hk, keysOf] at ih ⊢
        rw [ih]
        constructor
        · intro h
          exact ⟨fun he => hk he.symm, h⟩
        · intro h
          exact h.2

theorem countKey_eq_zero_of_lookup_none {α : Type} (l : List (String × α)) (k : String)
    (h : lookupKey l k = none) : countKey l k = 0 := by
  induction l with
  | nil => simp [countKey]
  | cons p rest ih =>
      by_cases hk : p.1 = k
      · simp [lookupKey, hk] at h
      · simp [lookupKey, hk] at h
        simp [countKey, List.filter] at ih ⊢
        simp [hk]
        simpa [countKey, List.filter] using ih h

theorem countKey_append_single_self {α : Type} (l : List (String × α)) (k : String) (v : α) :
    countKey (l ++ [(k, v)]) k = countKey l k + 1 := by
  simp [countKey, List.filter_append]

theorem countKey_pos_of_lookup_isSome {α : Type} (l : List (String × α)) (k : String)
    (h : (lookupKey l k).isSome = true) : 1 ≤ countKey l k := by
  induction l with
  | nil => simp [lookupKey] at h
  | cons p rest ih =>
      by_cases hk : p.1 = k
      · simp [countKey, List.filter, hk]
      · simp [lookupKey, hk] at h
        have := ih h
        simpa [countKey, List.filter, hk] using this

-- ─────────────────────────────────────────────────────────────────────
-- Character classes and string helpers used by the router's regexes
-- ─────────────────────────────────────────────────────────────────────

/-- The `\s` class of the router's regexes (ASCII whitespace). -/
def isWsChar (c : Char) : Bool :=
  c = ' ' || c = '\t' || c = '\n' || c = '\r' || c = '\x0b' || c = '\x0c'

/-- The `[a-zA-Z0-9-]` class of the router's worker-name regexes. -/
def isNameChar (c : Char) : Bool :=
  c.isAlpha || c.isDigit || c = '-'

/-- Python `str.strip()` on a character list. -/
def stripChars (l : List Char) : List Char :=
  ((l.dropWhile isWsChar).reverse.dropWhile isWsChar).reverse

/-- Python `str.strip()`. -/
def stripStr (s : String) : String :=
  String.mk (stripChars s.data)

/-- Python `str.capitalize()`: first character upper-cased, the rest lower-cased. -/
def capitalizeStr (s : String) : String :=
  match s.data with
  | [] => ""
  | c :: rest => String.mk (c.toUpper :: rest.map Char.toLower)

/-- Python `str.lower()` (ASCII case folding). -/
def lowerStr (s : String) : String :=
  String.mk (s.data.map Char.toLower)

/-- Python `s.startswith(p)`. -/
def strStartsWith (s p : String) : Bool :=
  p.data.isPrefixOf s.data

/-- Python `s[n:]`. -/
def strDropChars (s : String) (n : Nat) : String :=
  String.mk (s.data.drop n)

-- ─────────────────────────────────────────────────────────────────────
-- Backends (bridge.py lines 177-292)
-- ─────────────────────────────────────────────────────────────────────

/-- DEFAULT_BACKEND = "claude" (bridge.py line 76). -/
def DEFAULT_BACKEND : String := "claude"

/-- The keys of the BACKENDS registry (bridge.py lines 275-280). -/
def backendNames : List String := ["claude", "codex", "gemini", "opencode"]

/-- is_valid_backend (line 287): membership in the BACKENDS dict. -/
def is_valid_backend (n : String) : Bool := backendNames.contains n

/-- get_backend (line 283) resolves unknown names to the default claude backend;
this function returns the name of the backend object that get_backend yields. -/
def resolveBackendName (n : String) : String :=
  if is_valid_backend n then n else DEFAULT_BACKEND

/-- The is_exec flag of a resolved backend object: CodexBackend, GeminiBackend and
OpenCodeBackend set is_exec = True, ClaudeBackend sets it False. -/
def backendIsExec (resolved : String) : Bool :=
  resolved = "codex" || resolved = "gemini" || resolved = "opencode"

/-- normalize_backend (line 1262): `backend or DEFAULT_BACKEND`; None is modelled
as the empty string (get_tmux_env_value returns "" for a missing variable). -/
def normalize_backend (b : String) : String :=
  if b = "" then DEFAULT_BACKEND else b

-- ─────────────────────────────────────────────────────────────────────
-- System state: the externally observable world plus the bridge's files
-- ─────────────────────────────────────────────────────────────────────

/-- One entry of the registry dict built by WorkerManager (lines 1388-1437):
tmux-scanned entries carry {"tmux": ..., "backend": ...}; exec-merged entries
carry {"backend": ..., "mode": "exec"} and no tmux key (tmux = none here). -/
structure SessionInfo where
  tmux : Option String
  backend : String
deriving Repr, DecidableEq

/-- The state the program reads and writes.  tmuxSessions, claudeRunning,
sendKeysOk, adapterOk, tmuxNewOk and now are external observations (what tmux,
pgrep, the filesystem and the clock would answer); the remaining fields are
the files under the sessions directory and pipe root, and the in-memory
state["active"] / persisted last_active. -/
structure SysState where
  tmuxPref : String
  tmuxSessions : List String
  tmuxEnvBackend : List (String × String)
  claudeRunning : List String
  sendKeysOk : List String
  adapterOk : List String
  tmuxNewOk : Bool
  sessionDirs : List String
  backendFiles : List (String × String)
  sessionIdFiles : List (String × String)
  pendingFiles : List (String × Int)
  chatIdFiles : List (String × Int)
  pipes : List String
  active : Option String
  lastActive : Option String
  now : Int
deriving Repr, DecidableEq

/-- A baseline empty state with the default tmux prefix. -/
def st0 : SysState :=
  { tmuxPref := "claude-"
    tmuxSessions := []
    tmuxEnvBackend := []
    claudeRunning := []
    sendKeysOk := []
    adapterOk := []
    tmuxNewOk := true
    sessionDirs := []
    backendFiles := []
    sessionIdFiles := []
    pendingFiles := []
    chatIdFiles := []
    pipes := []
    active := none
    lastActive := none
    now := 0 }

/-- The components of the state that no bridge operation modelled here mutates
except hire/restart (external world, marker files, clock).  Used to state that
routing only touches pending/chat/dir/active bookkeeping. -/
def world (st : SysState) :
    String × List String × List (String × String) × List String × List String ×
      List String × List (String × String) × Int :=
  (st.tmuxPref, st.tmuxSessions, st.tmuxEnvBackend, st.claudeRunning, st.sendKeysOk,
    st.adapterOk, st.backendFiles, st.now)

-- ─────────────────────────────────────────────────────────────────────
-- tmux observations (bridge.py lines 120-174, 295-296, 1707-1718)
-- ─────────────────────────────────────────────────────────────────────

/-- tmux_exists (line 120): `tmux has-session` succeeds. -/
def tmux_exists (st : SysState) (t : String) : Bool :=
  st.tmuxSessions.contains t

/-- is_process_running(t, "claude") (line 149): pane-command / pgrep observation,
abstracted as membership in the set of sessions where the check succeeds. -/
def is_claude_running (st : SysState) (t : String) : Bool :=
  st.claudeRunning.contains t

/-- tmux_send_message (line 128) succeeds iff both `tmux send-keys` invocations
succeed, abstracted as a per-session observation. -/
def tmux_send_ok (st : SysState) (t : String) : Bool :=
  st.sendKeysOk.contains t

/-- get_tmux_env_value(t, "WORKER_BACKEND") (line 1707): "" when unset. -/
def worker_backend_env (st : SysState) (t : String) : String :=
  (lookupKey st.tmuxEnvBackend t).getD ""

-- ─────────────────────────────────────────────────────────────────────
-- Pending/typing-state tracker (bridge.py lines 1201-1255)
-- ─────────────────────────────────────────────────────────────────────

/-- ensure_session_dir (line 1206): mkdir(parents=True, exist_ok=True). -/
def ensure_session_dir (st : SysState) (n : String) : SysState :=
  if st.sessionDirs.contains n then st
  else { st with sessionDirs := st.sessionDirs ++ [n] }

/-- set_pending (line 1224): writes int(time.time()) to the pending file and the
chat id to the chat_id file, creating the session directory first. -/
def set_pending (st : SysState) (n : String) (chatId : Int) : SysState :=
  let st1 := ensure_session_dir st n
  { st1 with
      pendingFiles := dictInsert st1.pendingFiles n st1.now
      chatIdFiles := dictInsert st1.chatIdFiles n chatId }

/-- clear_pending (line 1235): unlink the pending file if it exists. -/
def clear_pending (st : SysState) (n : String) : SysState :=
  if (lookupKey st.pendingFiles n).isSome then
    { st with pendingFiles := eraseKey st.pendingFiles n }
  else st

/-- is_pending (line 1243): False when the marker is absent; when present, an
age strictly greater than 600 seconds deletes the marker and reports False,
otherwise True.  Returns the observation together with the possibly-changed
state (the lazy eviction side effect). -/
def is_pending (st : SysState) (n : String) : Bool × SysState :=
  match lookupKey st.pendingFiles n with
  | none => (false, st)
  | some ts =>
      if st.now - ts > 600 then
        (false, { st with pendingFiles := eraseKey st.pendingFiles n })
      else (true, st)

-- ─────────────────────────────────────────────────────────────────────
-- Worker registry and focus reconciliation (bridge.py lines 1388-1437)
-- ─────────────────────────────────────────────────────────────────────

/-- scan_tmux_sessions (line 1388): list tmux sessions, skip empty lines, keep
names starting with the prefix, strip the prefix, and record the tmux name and
the normalized WORKER_BACKEND session variable.  Dict assignment order follows
the session list. -/
def scan_tmux_sessions (pref : String) (sessions : List String)
    (env : List (String × String)) : List (String × SessionInfo) :=
  sessions.foldl
    (fun acc line =>
      if line ≠ "" ∧ pref.data.isPrefixOf line.data then
        dictInsert acc (String.mk (line.data.drop pref.length))
          ⟨some line, normalize_backend ((lookupKey env line).getD "")⟩
      else acc) []

/-- The registry built by get_registered_sessions (lines 1415-1430): the tmux
scan, then every session directory holding a backend marker file that is not
already present is appended as an exec-mode entry with the stripped file
contents as backend (a marker file exists only inside an existing directory,
so the directory iteration is modelled by the marker list). -/
def execMergeStep (acc : List (String × SessionInfo)) (p : String × String) :
    List (String × SessionInfo) :=
  if (lookupKey acc p.1).isSome then acc
  else acc ++ [(p.1, ⟨none, stripStr p.2⟩)]

def mergedRegistry (pref : String) (sessions : List String)
    (env : List (String × String)) (bfiles : List (String × String)) :
    List (String × SessionInfo) :=
  bfiles.foldl execMergeStep (scan_tmux_sessions pref sessions env)

/-- Line 1432-1433: `if state["active"] and state["active"] not in registered:
state["active"] = None`.  The conjunction `active and active not in registered`
is written as nested conditions: an empty-string focus is falsy and is kept. -/
def reconcileClear (reg : List (String × SessionInfo)) (active : Option String) :
    Option String :=
  match active with
  | some n => if n = "" then some n else if lookupKey reg n = none then none else some n
  | none => none

/-- Lines 1432-1435 of get_registered_sessions: the clearing step above followed
by `if registered and not state["active"]: state["active"] =
list(registered.keys())[0]`. -/
def reconcileActive (reg : List (String × SessionInfo)) (active : Option String) :
    Option String :=
  match reg with
  | [] => reconcileClear reg active
  | (k, _) :: _ =>
      if pyTruthy (reconcileClear reg active) = true then reconcileClear reg active
      else some k

/-- WorkerManager.get_registered_sessions (line 1415): returns the merged
registry and applies the focus reconciliation to state["active"]. -/
def get_registered_sessions (st : SysState) : List (String × SessionInfo) × SysState :=
  let reg := mergedRegistry st.tmuxPref st.tmuxSessions st.tmuxEnvBackend st.backendFiles
  (reg, { st with active := reconcileActive reg st.active })

theorem reconcileClear_some (reg : List (String × SessionInfo)) (a : Option String)
    (s : String) (h : reconcileClear reg a = some s) :
    a = some s ∧ (s = "" ∨ (lookupKey reg s).isSome = true) := by
  cases a with
  | none => simp [reconcileClear] at h
  | some n =>
      by_cases hn : n = ""
      · simp [reconcileClear, hn] at h
        subst h
        exact ⟨by rw [hn], Or.inl rfl⟩
      · by_cases hl : lookupKey reg n = none
        · simp [reconcileClear, hn, hl] at h
        · simp [reconcileClear, hn, hl] at h
          subst h
          refine ⟨rfl, Or.inr ?_⟩
          cases hx : lookupKey reg n with
          | none => exact absurd hx hl
          | some v => rfl

theorem reconcileClear_keep (reg : List (String × SessionInfo)) (s : String)
    (hmem : (lookupKey reg s).isSome = true) :
    reconcileClear reg (some s) = some s := by
  by_cases hn : s = ""
  · simp [reconcileClear, hn]
  · have hl : ¬ lookupKey reg s = none := by
      intro hc
      rw [hc] at hmem
      simp at hmem
    simp [reconcileClear, hn, hl]

theorem reconcileActive_keep (reg : List (String × SessionInfo)) (a : String)
    (hne : a ≠ "") (hmem : (lookupKey reg a).isSome = true) :
    reconcileActive reg (some a) = some a := by
  have hc := reconcileClear_keep reg a hmem
  cases reg with
  | nil => simp [lookupKey] at hmem
  | cons p rest =>
      rcases p with ⟨k, v⟩
      simp only [reconcileActive, hc]
      simp [pyTruthy, hne]

theorem reconcileActive_mem (reg : List (String × SessionInfo)) (a : Option String)
    (h : ∀ s, a = some s → s ≠ "") :
    ∀ n, reconcileActive reg a = some n → (lookupKey reg n).isSome = true := by
  intro n hn
  cases reg with
  | nil =>
      simp only [reconcileActive] at hn
      rcases reconcileClear_some _ _ _ hn with ⟨ha, hmem⟩
      rcases hmem with he | hmem
      · exact absurd he (h n ha)
      · exact hmem
  | cons p rest =>
      rcases p with ⟨k, v⟩
      simp only [reconcileActive] at hn
      by_cases ht : pyTruthy (reconcileClear ((k, v) :: rest) a) = true
      · rw [if_pos ht] at hn
        rcases reconcileClear_some _ _ _ hn with ⟨ha, hmem⟩
        rcases hmem with he | hmem
        · exact absurd he (h n ha)
        · exact hmem
      · rw [if_neg ht] at hn
        have hk : n = k := by
          injection hn with h1
          exact h1.symm
        subst hk
        simp [lookupKey]

theorem reconcileActive_none (reg : List (String × SessionInfo)) (a : Option String)
    (h : reconcileActive reg a = none) : reg = [] := by
  cases reg with
  | nil => rfl
  | cons p rest =>
      rcases p with ⟨k, v⟩
      simp only [reconcileActive] at h
      by_cases ht : pyTruthy (reconcileClear ((k, v) :: rest) a) = true
      · rw [if_pos ht] at h
        rw [h] at ht
        simp [pyTruthy] at ht
      · rw [if_neg ht] at h
        exact absurd h (by simp)

theorem reconcileActive_idem (reg : List (String × SessionInfo)) (a : Option String) :
    reconcileActive reg (reconcileActive reg a) = reconcileActive reg a := by
  cases hr : reconcileActive reg a with
  | none =>
      have hnil := reconcileActive_none reg a hr
      subst hnil
      rfl
  | some s =>
      by_cases hs : s = ""
      · subst hs
        cases reg with
        | nil =>
            simp only [reconcileActive] at hr ⊢
            simp [reconcileClear]
        | cons p rest =>
            rcases p with ⟨k, v⟩
            simp only [reconcileActive] at hr ⊢
            by_cases ht : pyTruthy (reconcileClear ((k, v) :: rest) a) = true
            · rw [if_pos ht] at hr
              rw [hr] at ht
              simp [pyTruthy] at ht
            · rw [if_neg ht] at hr
              have hk : k = "" := by
                injection hr
              subst hk
              simp [reconcileClear, pyTruthy]
      · have hmem : (lookupKey reg s).isSome = true := by
          cases reg with
          | nil =>
              simp only [reconcileActive] at hr
              rcases reconcileClear_some _ _ _ hr with ⟨_, hmem⟩
              rcases hmem with he | hm
              · exact absurd he hs
              · exact hm
          | cons p rest =>
              rcases p with ⟨k, v⟩
              simp only [reconcileActive] at hr
              by_cases ht : pyTruthy (reconcileClear ((k, v) :: rest) a) = true
              · rw [if_pos ht] at hr
                rcases reconcileClear_some _ _ _ hr with ⟨_, hmem⟩
                rcases hmem with he | hm
                · exact absurd he hs
                · exact hm
              · rw [if_neg ht] at hr
                have hk : s = k := by
                  injection hr with h1
                  exact h1.symm
                subst hk
                simp [lookupKey]
        exact reconcileActive_keep reg s hs hmem

-- ─────────────────────────────────────────────────────────────────────
-- Backend online / send behaviour (bridge.py lines 177-296, 1439-1467)
-- ─────────────────────────────────────────────────────────────────────

/-- Backend.is_online of the resolved backend object: ClaudeBackend (line 191)
requires the tmux session to exist and the claude process-name check to pass;
the exec backends (codex/gemini/opencode) always answer True. -/
def backend_is_online (st : SysState) (resolved : String) (t : String) : Bool :=
  if backendIsExec resolved then true
  else tmux_exists st t && is_claude_running st t

/-- Backend.send of the resolved backend object: ClaudeBackend (line 185)
returns False when the tmux session is gone and otherwise the outcome of
tmux_send_message; the exec backends (lines 205, 231, 257) succeed iff their
adapter script exists (the spawned adapter reports asynchronously). -/
def backend_send (st : SysState) (resolved : String) (t : String) : Bool :=
  if backendIsExec resolved then st.adapterOk.contains resolved
  else tmux_exists st t && tmux_send_ok st t

/-- WorkerManager.is_online (line 1439) given the session dict entry: backend
resolved from the entry's backend field, tmux name defaulted to prefix+name. -/
def manager_is_online_info (st : SysState) (n : String) (info : SessionInfo) : Bool :=
  backend_is_online st (resolveBackendName (normalize_backend info.backend))
    (info.tmux.getD (st.tmuxPref ++ n))

/-- WorkerManager.is_online (line 1439) without a session argument: looks the
worker up in the freshly built registry; unknown workers are offline. -/
def manager_is_online (st : SysState) (n : String) : Bool :=
  match lookupKey (get_registered_sessions st).1 n with
  | none => false
  | some info => manager_is_online_info st n info

/-- WorkerManager.send (line 1454) given the session dict entry. -/
def manager_send_info (st : SysState) (n : String) (info : SessionInfo) : Bool :=
  backend_send st (resolveBackendName (normalize_backend info.backend))
    (info.tmux.getD (st.tmuxPref ++ n))

/-- WorkerManager.send (line 1454) without a session argument: resolves the
worker in the freshly built registry and returns False when it is unknown;
otherwise delegates to the resolved backend.  (The message text does not
influence whether the delivery succeeds.) -/
def manager_send (st : SysState) (n : String) (msg : String) : Bool :=
  match lookupKey (get_registered_sessions st).1 n with
  | none => false
  | some info =>
      let _ := msg
      manager_send_info st n info

/-- get_worker_backend (line 1361): the session dict's backend field when
truthy, else the backend marker file contents (stripped, normalized), else
the default backend. -/
def get_worker_backend (st : SysState) (n : String) (info : SessionInfo) : String :=
  if info.backend ≠ "" then normalize_backend info.backend
  else match lookupKey st.backendFiles n with
    | some contents => normalize_backend (stripStr contents)
    | none => DEFAULT_BACKEND

-- ─────────────────────────────────────────────────────────────────────
-- Worker pipes and pipe-reader threads (bridge.py lines 537-713)
-- ─────────────────────────────────────────────────────────────────────

/-- ensure_worker_pipe (line 545): create the FIFO if absent.  It also invokes
start_pipe_reader; the reader-thread table is modelled separately below. -/
def ensure_worker_pipe (st : SysState) (n : String) : SysState :=
  if st.pipes.contains n then st else { st with pipes := st.pipes ++ [n] }

/-- The _pipe_reader_threads dict (line 597): worker name to a live reader
thread, with fresh thread identities drawn from a counter. -/
structure PipeReaders where
  table : List (String × Nat)
  nextId : Nat
deriving Repr, DecidableEq

/-- start_pipe_reader (line 667): a no-op when a reader for the worker is
already registered, a refused no-op when the worker's pipe does not exist,
and otherwise registers and starts exactly one new reader thread. -/
def start_pipe_reader (pipes : List String) (pr : PipeReaders) (n : String) :
    PipeReaders :=
  if (lookupKey pr.table n).isSome then pr
  else if pipes.contains n then
    { table := pr.table ++ [(n, pr.nextId)], nextId := pr.nextId + 1 }
  else pr

-- ─────────────────────────────────────────────────────────────────────
-- WorkerManager.hire and restart (bridge.py lines 1497-1660)
-- ─────────────────────────────────────────────────────────────────────

/-- export_hook_env (line 1756): `tmux set-environment` of the hook variables;
the one the registry scan later reads back is WORKER_BACKEND (normalized). -/
def export_hook_env (st : SysState) (t : String) (backend : String) : SysState :=
  { st with tmuxEnvBackend := dictInsert st.tmuxEnvBackend t (normalize_backend backend) }

/-- The focus-reconciliation side effect of calling WorkerManager.send (it
calls get_registered_sessions, line 1458) when hire sends the welcome text. -/
def send_reconcile (st : SysState) : SysState :=
  (get_registered_sessions st).2

/-- The state changes of hire's exec-mode path (lines 1506-1525), in program
order: set and persist focus, create the session directory and worker pipe,
write the backend marker file, and pre-arm the pending state when a truthy
chat id was given. -/
def hireExecState (st : SysState) (name : String) (backend : String)
    (chatId : Option Int) : SysState :=
  let st1 := { st with active := some name, lastActive := some name }
  let st2 := ensure_session_dir st1 name
  let st3 := ensure_worker_pipe st2 name
  let st4 := { st3 with backendFiles := dictInsert st3.backendFiles name backend }
  match chatId with
  | some c => if c ≠ 0 then set_pending st4 name c else st4
  | none => st4

/-- The state changes of hire's successful interactive path (lines 1531-1571),
in program order: create the tmux session, export the hook environment, the
start-command and handshake keystrokes, the welcome send (registry
reconciliation), then set and persist focus and create the session directory
and worker pipe. -/
def hireTmuxState (st : SysState) (name : String) (backend : String) : SysState :=
  let t := st.tmuxPref ++ name
  let st1 := { st with tmuxSessions := st.tmuxSessions ++ [t] }
  let st2 := export_hook_env st1 t backend
  let st3 := send_reconcile st2
  let st4 := { st3 with active := some name, lastActive := some name }
  let st5 := ensure_session_dir st4 name
  ensure_worker_pipe st5 name

/-- WorkerManager.hire (line 1497), sandbox mode disabled (the default).
Exec-mode backends (line 1506): set and persist focus, create the session
directory and pipe, write the backend marker, pre-arm pending when a chat id
is given, and send the welcome message (whose only modelled effect is the
registry reconciliation inside send); this path performs no duplicate-name
check.  Interactive backends: fail when the tmux session already exists or
cannot be created; otherwise create it, export the hook environment, run the
start command and handshake keystrokes, send the welcome, then set and
persist focus and create the session directory and pipe. -/
def hire (st : SysState) (name : String) (backend : String) (chatId : Option Int) :
    Bool × Option String × SysState :=
  if ¬ is_valid_backend backend then
    (false, some ("Unknown backend \x27" ++ backend ++
      "\x27. Available: claude, codex, gemini, opencode"), st)
  else if backendIsExec backend then
    (true, none, send_reconcile (hireExecState st name backend chatId))
  else
    let t := st.tmuxPref ++ name
    if tmux_exists st t then
      (false, some ("Worker \x27" ++ name ++ "\x27 already exists"), st)
    else if ¬ st.tmuxNewOk then
      (false, some "Could not start the worker workspace", st)
    else
      (true, none, hireTmuxState st name backend)

/-- WorkerManager.restart (line 1622), sandbox mode disabled.  Returns none for
the uncaught KeyError when an interactive-resolved entry has no tmux key.
Exec backends: recreate the session directory and pipe, drop saved session-id
files and the pending marker.  Interactive backends: fail when the workspace
is gone, fail with "Worker is already running" when the process-name check
reports the process alive, and otherwise re-export the hook environment and
re-issue the start command into the existing session. -/
def restart (st : SysState) (name : String) :
    Option (Bool × Option String × SysState) :=
  let reg := (get_registered_sessions st).1
  let st1 := (get_registered_sessions st).2
  match lookupKey reg name with
  | none => some (false, some ("Worker \x27" ++ name ++ "\x27 not found"), st1)
  | some info =>
      let bname := get_worker_backend st1 name info
      if backendIsExec (resolveBackendName bname) then
        let st2 := ensure_session_dir st1 name
        let st3 := { st2 with sessionIdFiles := st2.sessionIdFiles.filter (fun p => p.1 ≠ name) }
        let st4 := ensure_worker_pipe st3 name
        some (true, none, clear_pending st4 name)
      else
        match info.tmux with
        | none => none
        | some t =>
            if ¬ tmux_exists st1 t then
              some (false, some "Worker workspace is not running", st1)
            else if is_claude_running st1 t then
              some (false, some "Worker is already running", st1)
            else
              some (true, none, export_hook_env st1 t bname)

-- ─────────────────────────────────────────────────────────────────────
-- Per-session tmux send locks and the serialization model (lines 107-137)
-- ─────────────────────────────────────────────────────────────────────

/-- The _tmux_send_locks table together with a supply of fresh lock
identities.  The table itself is guarded by _tmux_send_locks_guard (line
109), a single lock held for the duration of the lookup, so table accesses
are modelled as atomic state transitions. -/
structure TmuxSendLocks where
  locks : List (String × Nat)
  nextId : Nat
deriving Repr, DecidableEq

/-- _get_tmux_send_lock (line 112): under the table guard, return the existing
lock of a session or lazily create one. -/
def get_tmux_send_lock (ls : TmuxSendLocks) (t : String) : Nat × TmuxSendLocks :=
  match lookupKey ls.locks t with
  | some l => (l, ls)
  | none => (ls.nextId, ⟨ls.locks ++ [(t, ls.nextId)], ls.nextId + 1⟩)

/-- The externally visible keystroke steps of tmux_send_message (line 128):
the literal-text write, the 0.2 s settle delay, and the Enter submission. -/
inductive SendStep where
  | writeLiteral (text : String)
  | settleDelay
  | submitEnter
deriving Repr, DecidableEq

/-- One atomic action of a thread running tmux_send_message: acquire the
session's lock, perform a keystroke step, release the lock. -/
inductive ThreadAct where
  | acquire
  | perform (s : SendStep)
  | release
deriving Repr, DecidableEq

/-- The body of tmux_send_message (line 128) as an action sequence: the whole
write-delay-submit sequence runs between acquire and release of the session
lock (the early return when the first send-keys fails also releases only
afterwards; the success path is modelled). -/
def sendProgram (text : String) : List ThreadAct :=
  [ThreadAct.acquire, ThreadAct.perform (SendStep.writeLiteral text),
    ThreadAct.perform SendStep.settleDelay, ThreadAct.perform SendStep.submitEnter,
    ThreadAct.release]

/-- Two threads executing action lists against one shared mutex (the lock both
obtain from _get_tmux_send_lock for the same session name), with the trace of
performed keystroke steps tagged by thread. -/
structure TwoThreads where
  lockHeld : Option Bool
  progA : List ThreadAct
  progB : List ThreadAct
  trace : List (Bool × SendStep)
deriving Repr, DecidableEq

/-- One scheduler step of the chosen thread; none when that thread is finished
or blocked on the held mutex. -/
def stepThread (tid : Bool) (st : TwoThreads) : Option TwoThreads :=
  match (if tid then st.progA else st.progB) with
  | [] => none
  | a :: rest =>
      let withProg := fun (s : TwoThreads) =>
        if tid then { s with progA := rest } else { s with progB := rest }
      match a with
      | ThreadAct.acquire =>
          match st.lockHeld with
          | some _ => none
          | none => some (withProg { st with lockHeld := some tid })
      | ThreadAct.perform s =>
          some (withProg { st with trace := st.trace ++ [(tid, s)] })
      | ThreadAct.release =>
          some (withProg { st with lockHeld := none })

/-- All enabled scheduler steps. -/
def successors (st : TwoThreads) : List TwoThreads :=
  (match stepThread true st with | some s => [s] | none => []) ++
    (match stepThread false st with | some s => [s] | none => [])

/-- All traces of maximal interleavings, fuel-bounded. -/
def runAll : Nat → TwoThreads → List (List (Bool × SendStep))
  | 0, st => [st.trace]
  | fuel + 1, st =>
      let succs := successors st
      if succs.isEmpty then [st.trace] else (succs.map (runAll fuel)).flatten

/-- Two concurrent tmux_send_message calls against the same session. -/
def initSends (ta tb : String) : TwoThreads :=
  ⟨none, sendProgram ta, sendProgram tb, []⟩

/-- Number of alternations between the two thread tags along a trace. -/
def boolChanges : List Bool → Nat
  | [] => 0
  | [_] => 0
  | a :: b :: rest => (if a ≠ b then 1 else 0) + boolChanges (b :: rest)

/-- A trace is serialized when each thread's steps form one contiguous block. -/
def traceSerialized (tr : List (Bool × SendStep)) : Bool :=
  Nat.ble (boolChanges (tr.map Prod.fst)) 1

-- ─────────────────────────────────────────────────────────────────────
-- Command router: parsing (bridge.py lines 2167-2213)
-- ─────────────────────────────────────────────────────────────────────

/-- A Telegram message being replied to, as the router reads it: its text (or,
falsily chained, its caption), and whether a `from` entry is present and marks
the sender as a bot. -/
structure ReplyMsg where
  text : Option String
  caption : Option String
  fromIsBot : Bool
deriving Repr, DecidableEq

/-- reply_msg.get("text") or reply_msg.get("caption") or "" (line 2193). -/
def replyTextOf (m : ReplyMsg) : String :=
  match m.text with
  | some s => if s ≠ "" then s else (match m.caption with | some c => c | none => "")
  | none => match m.caption with | some c => c | none => ""

/-- parse_at_mention (line 2167): the greedy match of
`^@([a-zA-Z0-9-]+)\s+(.+)$` with DOTALL.  The name run and the whitespace run
are maximal; when nothing follows the whitespace the `.+` group backtracks to
claim the final whitespace character.  The lower-cased name must be a
registered worker, else the input is returned unchanged with no target. -/
def parse_at_mention (reg : List (String × SessionInfo)) (text : String) :
    Option String × String :=
  match text.data with
  | c0 :: rest =>
      if c0 = '@' then
        let nameRun := rest.takeWhile isNameChar
        let afterName := rest.dropWhile isNameChar
        let ws := afterName.takeWhile isWsChar
        let tail := afterName.dropWhile isWsChar
        if nameRun.isEmpty ∨ ws.isEmpty then (none, text)
        else
          let msg : Option (List Char) :=
            if tail.isEmpty = false then some tail
            else match ws.reverse with
              | c :: _ :: _ => some [c]
              | _ => none
          match msg with
          | none => (none, text)
          | some m =>
              let nm := String.mk (nameRun.map Char.toLower)
              if (lookupKey reg nm).isSome then (some nm, String.mk m) else (none, text)
      else (none, text)
  | [] => (none, text)

/-- parse_worker_prefix (line 2177): the match of
`^\s*([a-zA-Z0-9-]+):\s*(.*)$` with DOTALL, the group-2 message stripped; the
lower-cased name must be a registered worker, else (None, ""). -/
def parse_worker_prefixFn (reg : List (String × SessionInfo)) (text : String) :
    Option String × String :=
  if text = "" then (none, "")
  else
    let cs := text.data
    let afterWs := cs.dropWhile isWsChar
    let nameRun := afterWs.takeWhile isNameChar
    let afterName := afterWs.dropWhile isNameChar
    if nameRun.isEmpty then (none, "")
    else
      match afterName with
      | c :: rest =>
          if c = ':' then
            let nm := String.mk (nameRun.map Char.toLower)
            let msg := stripChars (rest.dropWhile isWsChar)
            if (lookupKey reg nm).isSome then (some nm, String.mk msg) else (none, "")
          else (none, "")
      | [] => (none, "")

/-- parse_reply_target (line 2190): only messages sent by the bot whose
text-or-caption carries a registered worker-name prefix yield a target; the
replied text is always returned. -/
def parse_reply_target (reg : List (String × SessionInfo)) (m : Option ReplyMsg) :
    Option String × String :=
  match m with
  | none => (none, "")
  | some rm =>
      let rt := replyTextOf rm
      if rm.fromIsBot then
        match (parse_worker_prefixFn reg rt).1 with
        | some w => (some w, rt)
        | none => (none, rt)
      else (none, rt)

/-- format_reply_context (line 2203). -/
def format_reply_context (reply ctx : String) : String :=
  let r := stripStr reply
  let c := stripStr ctx
  if c ≠ "" then
    "Manager reply:\n" ++ r ++ "\n\nContext (your previous message):\n" ++ c
  else "Manager reply:\n" ++ r

-- ─────────────────────────────────────────────────────────────────────
-- Command router: dispatch resolution (bridge.py lines 2137-2165, 2507-2519)
-- ─────────────────────────────────────────────────────────────────────

/-- The routing decision the non-command part of handle_message reaches:
an @all broadcast, a send to a resolved worker (one_off marks the paths that
do not move focus), or a route_to_active call finding no truthy focus. -/
inductive Dispatch where
  | broadcast (message : String)
  | toWorker (target : String) (message : String) (oneOff : Bool)
  | noFocus (message : String)
deriving Repr, DecidableEq

/-- route_to_active (line 2507) at decision level: an empty-or-None focus
(Python falsy) yields the no-focus reply, otherwise the message goes to the
focused worker with one_off=False. -/
def route_to_activeD (active1 : Option String) (m : String) : Dispatch :=
  match active1 with
  | some a => if a ≠ "" then Dispatch.toWorker a m false else Dispatch.noFocus m
  | none => Dispatch.noFocus m

/-- Lines 2137-2165 of handle_message (the dispatch of a non-command text),
at decision level over a fixed externally-derived registry.  The repeated
get_registered_sessions calls inside parse_at_mention, parse_worker_prefix,
route_message and route_to_active each reconcile the focus against the same
registry; by reconcileActive_idem their net effect is the single
reconciliation applied here, and the branches themselves never assign the
focus pointer.  Order of tests: the `@all ` prefix of the lower-cased text,
then an @-mention of a registered worker (reply context appended when
present), then a reply whose replied text is truthy - routed to the worker
named by a bot reply prefix when there is one, else to the focused worker
with the replied text as context - and finally plain default routing. -/
def handle_message_text (reg : List (String × SessionInfo)) (active0 : Option String)
    (text : String) (replyTo : Option ReplyMsg) : Dispatch × Option String :=
  let active1 := reconcileActive reg active0
  let d :=
    if strStartsWith (lowerStr text) "@all " then Dispatch.broadcast (strDropChars text 5)
    else
      let replyContext := (parse_reply_target reg replyTo).2
      match parse_at_mention reg text with
      | (some tgt, msg) =>
          let m1 := if replyContext ≠ "" then format_reply_context msg replyContext else msg
          Dispatch.toWorker tgt m1 true
      | (none, _) =>
          match replyTo with
          | some _ =>
              if replyContext ≠ "" then
                match (parse_reply_target reg replyTo).1 with
                | some w => Dispatch.toWorker w (format_reply_context text replyContext) true
                | none => route_to_activeD active1 (format_reply_context text replyContext)
              else route_to_activeD active1 text
          | none => route_to_activeD active1 text
  (d, active1)

-- ─────────────────────────────────────────────────────────────────────
-- Command router: routed sends and broadcast (bridge.py lines 2521-2574)
-- ─────────────────────────────────────────────────────────────────────

/-- The observable outcome of executing routed sends: the resulting state, the
replies sent back to the operator chat in order, the workers whose backend
send succeeded, and the workers for which a send was attempted. -/
structure RunOut where
  st : SysState
  replies : List String
  sent : List String
  attempts : List String
deriving Repr, DecidableEq

/-- route_message (line 2538): re-resolve the registry (reconciling focus),
answer "Can't find ..." for unknown workers and "... is offline. Try
/relaunch." for offline ones; otherwise mark pending (the typing-loop thread
it spawns only reads state), attempt the backend send, and on failure clear
pending and report "Could not send ...".  The msg_id reaction on success
touches only the Telegram API.  The one_off argument is unused in the
function body. -/
def route_message (st : SysState) (name : String) (text : String) (chatId : Int) :
    RunOut :=
  let reg := (get_registered_sessions st).1
  let st1 := (get_registered_sessions st).2
  match lookupKey reg name with
  | none =>
      ⟨st1, ["Can\x27t find " ++ name ++ ". Check /team for who\x27s available."], [], []⟩
  | some info =>
      if ¬ manager_is_online_info st1 name info then
        ⟨st1, [capitalizeStr name ++ " is offline. Try /relaunch."], [], []⟩
      else
        let st2 := set_pending st1 name chatId
        let _ := text
        if manager_send_info st2 name info then ⟨st2, [], [name], [name]⟩
        else
          ⟨clear_pending st2 name,
            ["Could not send to " ++ capitalizeStr name ++ ". Try /relaunch."], [], [name]⟩

/-- The loop body of route_to_all (lines 2529-2533): workers passing the
is_online check get a route_message call and are appended to sent_to whatever
the send outcome; offline workers are skipped with no effect. -/
def routeAllStep (text : String) (chatId : Int) (acc : RunOut × List String)
    (p : String × SessionInfo) : RunOut × List String :=
  if manager_is_online_info acc.1.st p.1 p.2 then
    let r := route_message acc.1.st p.1 text chatId
    (⟨r.st, acc.1.replies ++ r.replies, acc.1.sent ++ r.sent,
      acc.1.attempts ++ r.attempts⟩, acc.2 ++ [p.1])
  else acc

/-- route_to_all (line 2521): over the freshly resolved registry, route the
message to each currently-online worker in enumeration order (appending each
such worker to sent_to whatever the send outcome), reply "No team members
yet..." when the registry is empty and "No one's online to share with." when
no worker was online.  Offline workers are skipped without any reply. -/
def route_to_all (st : SysState) (text : String) (chatId : Int) :
    RunOut × List String :=
  let reg := (get_registered_sessions st).1
  let st1 := (get_registered_sessions st).2
  if reg.isEmpty then
    (⟨st1, ["No team members yet. Add someone with /hire <name>."], [], []⟩, [])
  else
    let res := reg.foldl (routeAllStep text chatId) (⟨st1, [], [], []⟩, [])
    if res.2.isEmpty then
      (⟨res.1.st, res.1.replies ++ ["No one\x27s online to share with."],
        res.1.sent, res.1.attempts⟩, res.2)
    else res

-- ─────────────────────────────────────────────────────────────────────
-- Stability lemmas: pending bookkeeping never changes the external world
-- ─────────────────────────────────────────────────────────────────────

theorem world_ensure_session_dir (st : SysState) (n : String) :
    world (ensure_session_dir st n) = world st := by
  unfold ensure_session_dir
  split <;> rfl

theorem active_ensure_session_dir (st : SysState) (n : String) :
    (ensure_session_dir st n).active = st.active := by
  unfold ensure_session_dir
  split <;> rfl

theorem world_set_pending (st : SysState) (n : String) (c : Int) :
    world (set_pending st n c) = world st := by
  unfold set_pending ensure_session_dir
  split <;> rfl

theorem active_set_pending (st : SysState) (n : String) (c : Int) :
    (set_pending st n c).active = st.active := by
  unfold set_pending ensure_session_dir
  split <;> rfl

theorem world_clear_pending (st : SysState) (n : String) :
    world (clear_pending st n) = world st := by
  unfold clear_pending
  split <;> rfl

theorem active_clear_pending (st : SysState) (n : String) :
    (clear_pending st n).active = st.active := by
  unfold clear_pending
  split <;> rfl

theorem lookup_set_pending_self (st : SysState) (n : String) (c : Int) :
    lookupKey (set_pending st n c).pendingFiles n = some st.now := by
  unfold set_pending ensure_session_dir
  split <;> simp [lookupKey_dictInsert_self]

theorem world_fields {s t : SysState} (h : world s = world t) :
    s.tmuxPref = t.tmuxPref ∧ s.tmuxSessions = t.tmuxSessions ∧
      s.tmuxEnvBackend = t.tmuxEnvBackend ∧ s.claudeRunning = t.claudeRunning ∧
      s.sendKeysOk = t.sendKeysOk ∧ s.adapterOk = t.adapterOk ∧
      s.backendFiles = t.backendFiles ∧ s.now = t.now := by
  unfold world at h
  simp only [Prod.mk.injEq] at h
  exact ⟨h.1, h.2.1, h.2.2.1, h.2.2.2.1, h.2.2.2.2.1, h.2.2.2.2.2.1,
    h.2.2.2.2.2.2.1, h.2.2.2.2.2.2.2⟩

theorem registry_congr {s t : SysState} (h : world s = world t) :
    (get_registered_sessions s).1 = (get_registered_sessions t).1 := by
  rcases world_fields h with ⟨h1, h2, h3, _, _, _, h7, _⟩
  simp only [get_registered_sessions]
  rw [h1, h2, h3, h7]

theorem manager_is_online_info_congr {s t : SysState} (h : world s = world t)
    (n : String) (info : SessionInfo) :
    manager_is_online_info s n info = manager_is_online_info t n info := by
  rcases world_fields h with ⟨h1, h2, _, h4, _, _, _, _⟩
  simp only [manager_is_online_info, backend_is_online, tmux_exists, is_claude_running]
  rw [h1, h2, h4]

theorem manager_send_info_congr {s t : SysState} (h : world s = world t)
    (n : String) (info : SessionInfo) :
    manager_send_info s n info = manager_send_info t n info := by
  rcases world_fields h with ⟨h1, h2, _, _, h5, h6, _, _⟩
  simp only [manager_send_info, backend_send, tmux_exists, tmux_send_ok]
  rw [h1, h2, h5, h6]

theorem world_get_registered (st : SysState) :
    world (get_registered_sessions st).2 = world st := rfl

theorem active_get_registered (st : SysState) :
    (get_registered_sessions st).2.active =
      reconcileActive (get_registered_sessions st).1 st.active := rfl

-- ─────────────────────────────────────────────────────────────────────
-- C1: focus-pointer reconciliation in get_registered_sessions
-- ─────────────────────────────────────────────────────────────────────

/-- C1 counterexample: the claim fails at the empty worker name.  A tmux
session named exactly "claude-" registers the worker "" and reconciliation
then sets the focus pointer to it; once the session list is empty again, a
focus pointer of "" is Python-falsy, so get_registered_sessions leaves it
naming a worker absent from the (empty) freshly-reconciled registry instead
of clearing it. -/
theorem c1_counterexample :
    (get_registered_sessions { st0 with tmuxSessions := ["claude-"] }).2.active = some ""
    ∧ (get_registered_sessions { st0 with active := some "" }).1 = []
    ∧ (get_registered_sessions { st0 with active := some "" }).2.active = some "" := by
  decide

/-- C1 (amended): for every external registry state, provided the focus
pointer does not hold the empty-string name (which Python truthiness treats
as already cleared), a call to WorkerManager.get_registered_sessions never
leaves the focus naming a worker absent from the freshly-reconciled
registry: a focus that is cleared leaves it none only when the registry is
empty, and a focus that pointed at an absent worker is replaced by the
first-enumerated remaining worker (or cleared when none remain). -/
theorem c1_focus_reconciliation (st : SysState)
    (h : ∀ s, st.active = some s → s ≠ "") :
    (∀ n, (get_registered_sessions st).2.active = some n →
        (lookupKey (get_registered_sessions st).1 n).isSome = true)
    ∧ ((get_registered_sessions st).2.active = none → (get_registered_sessions st).1 = [])
    ∧ (∀ a, st.active = some a → lookupKey (get_registered_sessions st).1 a = none →
        (get_registered_sessions st).2.active =
          (match (get_registered_sessions st).1 with
            | [] => none
            | (k, _) :: _ => some k)) := by
  rw [active_get_registered]
  refine ⟨reconcileActive_mem _ _ h, reconcileActive_none _ _, ?_⟩
  intro a ha hl
  have hne := h a ha
  rw [ha]
  have hclear : reconcileClear (get_registered_sessions st).1 (some a) = none := by
    simp [reconcileClear, hne, hl]
  cases hreg : (get_registered_sessions st).1 with
  | nil =>
      simp only [reconcileActive]
      rw [hreg] at hclear
      exact hclear
  | cons p rest =>
      rcases p with ⟨k, v⟩
      simp only [reconcileActive]
      rw [hreg] at hclear
      rw [hclear]
      simp [pyTruthy]

/-- Witness for c1_focus_reconciliation at a concrete state. -/
theorem c1_focus_reconciliation_witness :
    (∀ s, ({ st0 with tmuxSessions := ["claude-alice"], active := some "bob" } : SysState).active
        = some s → s ≠ "")
    ∧ ((∀ n, (get_registered_sessions
          { st0 with tmuxSessions := ["claude-alice"], active := some "bob" }).2.active = some n →
        (lookupKey (get_registered_sessions
          { st0 with tmuxSessions := ["claude-alice"], active := some "bob" }).1 n).isSome = true)
      ∧ ((get_registered_sessions
            { st0 with tmuxSessions := ["claude-alice"], active := some "bob" }).2.active = none →
          (get_registered_sessions
            { st0 with tmuxSessions := ["claude-alice"], active := some "bob" }).1 = [])
      ∧ (∀ a, ({ st0 with tmuxSessions := ["claude-alice"], active := some "bob" } : SysState).active
            = some a →
          lookupKey (get_registered_sessions
            { st0 with tmuxSessions := ["claude-alice"], active := some "bob" }).1 a = none →
          (get_registered_sessions
            { st0 with tmuxSessions := ["claude-alice"], active := some "bob" }).2.active =
            (match (get_registered_sessions
              { st0 with tmuxSessions := ["claude-alice"], active := some "bob" }).1 with
              | [] => none
              | (k, _) :: _ => some k))) := by
  constructor
  · intro s hs
    injection hs with h1
    subst h1
    decide
  · exact c1_focus_reconciliation _ (by
      intro s hs
      injection hs with h1
      subst h1
      decide)

-- ─────────────────────────────────────────────────────────────────────
-- C2: pending-marker lifecycle
-- ─────────────────────────────────────────────────────────────────────

theorem is_pending_fst_iff (st : SysState) (n : String) :
    (is_pending st n).1 = true ↔
      ∃ ts, lookupKey st.pendingFiles n = some ts ∧ st.now - ts ≤ 600 := by
  unfold is_pending
  cases hl : lookupKey st.pendingFiles n with
  | none => simp
  | some ts =>
      by_cases hexp : st.now - ts > 600
      · simp [hexp]
        omega
      · simp [hexp]
        omega

/-- C2 counterexample: the claim's strict bound fails at the boundary.  With a
marker written at time 0 and the clock at exactly 600 seconds, is_pending
still answers true although the marker's age is not < 600 s (the code only
expires markers strictly older than 600 s), so neither "true iff age < 600 s"
nor "false once 600 seconds have elapsed" holds at this input. -/
theorem c2_counterexample :
    (is_pending { st0 with pendingFiles := [("w", 0)], now := 600 } "w").1 = true
    ∧ ¬ ((600 : Int) - 0 < 600) := by
  decide

/-- C2 (amended): is_pending(n) is true iff the pending marker for n exists
and its recorded timestamp is at most 600 seconds old (an age strictly
greater than 600 s counts as expired); is_pending(n) is false immediately
after clear_pending(n); and in any state whose pending files are those left
by set_pending(n, c) and whose clock has advanced strictly more than 600
seconds past the write time, is_pending(n) returns false and deletes the
expired marker as a side effect, even without an explicit clear. -/
theorem c2_pending_lifecycle (st : SysState) (n : String) (c : Int) :
    ((is_pending st n).1 = true ↔
      ∃ ts, lookupKey st.pendingFiles n = some ts ∧ st.now - ts ≤ 600)
    ∧ (is_pending (clear_pending st n) n).1 = false
    ∧ (∀ st2 : SysState, st2.pendingFiles = (set_pending st n c).pendingFiles →
        st2.now - st.now > 600 →
        (is_pending st2 n).1 = false
        ∧ lookupKey (is_pending st2 n).2.pendingFiles n = none) := by
  refine ⟨is_pending_fst_iff st n, ?_, ?_⟩
  · unfold clear_pending
    split
    · unfold is_pending
      rw [lookupKey_eraseKey_self]
    · rename_i hnone
      unfold is_pending
      cases hl : lookupKey st.pendingFiles n with
      | none => rfl
      | some ts => rw [hl] at hnone; simp at hnone
  · intro st2 hp hlate
    have hlook : lookupKey st2.pendingFiles n = some st.now := by
      rw [hp]
      exact lookup_set_pending_self st n c
    constructor
    · unfold is_pending
      rw [hlook]
      dsimp only
      rw [if_pos hlate]
    · unfold is_pending
      rw [hlook]
      dsimp only
      rw [if_pos hlate]
      exact lookupKey_eraseKey_self _ n

/-- Witness for c2_pending_lifecycle at a concrete state and times. -/
theorem c2_pending_lifecycle_witness :
    ((is_pending { st0 with pendingFiles := [("w", 0)], now := 100 } "w").1 = true ↔
      ∃ ts, lookupKey ({ st0 with pendingFiles := [("w", 0)], now := 100 } : SysState).pendingFiles
          "w" = some ts
        ∧ ({ st0 with pendingFiles := [("w", 0)], now := 100 } : SysState).now - ts ≤ 600)
    ∧ (is_pending (clear_pending { st0 with pendingFiles := [("w", 0)], now := 100 } "w") "w").1
        = false
    ∧ (∀ st2 : SysState,
        st2.pendingFiles =
          (set_pending { st0 with pendingFiles := [("w", 0)], now := 100 } "w" 7).pendingFiles →
        st2.now - ({ st0 with pendingFiles := [("w", 0)], now := 100 } : SysState).now > 600 →
        (is_pending st2 "w").1 = false
        ∧ lookupKey (is_pending st2 "w").2.pendingFiles "w" = none) :=
  c2_pending_lifecycle { st0 with pendingFiles := [("w", 0)], now := 100 } "w" 7

-- ─────────────────────────────────────────────────────────────────────
-- C3: serialization of concurrent sends to the same worker
-- ─────────────────────────────────────────────────────────────────────

set_option maxHeartbeats 2000000 in
/-- C3 (confirmed): two lookups of the lock table for the same tmux session
name yield the same mutex (the per-worker lock is keyed by session name and
created lazily under the table guard), and every maximal interleaving of two
threads running tmux_send_message's write - delay - Enter sequence under that
one shared mutex is serialized: each thread's three keystroke steps form one
contiguous block, and both runs complete (every maximal trace has all six
steps). -/
theorem c3_same_session_sends_serialized (ls : TmuxSendLocks) (t ta tb : String) :
    (get_tmux_send_lock ((get_tmux_send_lock ls t).2) t).1 = (get_tmux_send_lock ls t).1
    ∧ ((runAll 12 (initSends ta tb)).all
        (fun tr => traceSerialized tr && (tr.length == 6))) = true := by
  constructor
  · unfold get_tmux_send_lock
    cases hl : lookupKey ls.locks t with
    | some l => simp [hl]
    | none =>
        have h2 := lookupKey_append_single_self ls.locks t ls.nextId hl
        simp [hl, h2]
  · rfl

-- ─────────────────────────────────────────────────────────────────────
-- C9: idempotent pipe-reader start
-- ─────────────────────────────────────────────────────────────────────

/-- C9 counterexample: for a worker name whose pipe does not exist, two
consecutive start_pipe_reader calls leave zero reader threads in the table,
not exactly one - start refuses to register a reader without a pipe. -/
theorem c9_counterexample :
    countKey (start_pipe_reader [] (start_pipe_reader [] ⟨[], 0⟩ "ghost") "ghost").table
        "ghost" ≠ 1
    ∧ (start_pipe_reader [] (start_pipe_reader [] ⟨[], 0⟩ "ghost") "ghost").table = [] := by
  decide

/-- C9 (amended): calling start_pipe_reader(n) when a reader for n is already
registered is a no-op, and the second of two consecutive calls never changes
the table; provided n's pipe exists, after two consecutive calls exactly one
live reader thread for n exists in the reader-thread table (when the pipe is
missing the start is refused and no reader is registered). -/
theorem c9_start_pipe_reader_idempotent (pipes : List String) (pr : PipeReaders)
    (n : String) (hdict : countKey pr.table n ≤ 1) :
    start_pipe_reader pipes (start_pipe_reader pipes pr n) n = start_pipe_reader pipes pr n
    ∧ ((lookupKey pr.table n).isSome = true → start_pipe_reader pipes pr n = pr)
    ∧ (pipes.contains n = true →
        countKey (start_pipe_reader pipes (start_pipe_reader pipes pr n) n).table n = 1) := by
  by_cases hreg : (lookupKey pr.table n).isSome = true
  · have h1 : start_pipe_reader pipes pr n = pr := by
      unfold start_pipe_reader
      rw [if_pos hreg]
    refine ⟨by rw [h1, h1], fun _ => h1, ?_⟩
    intro _
    rw [h1, h1]
    have hpos := countKey_pos_of_lookup_isSome pr.table n hreg
    omega
  · have hnone : lookupKey pr.table n = none := by
      cases hx : lookupKey pr.table n with
      | none => rfl
      | some v => rw [hx] at hreg; simp at hreg
    by_cases hpipe : pipes.contains n = true
    · have h1 : start_pipe_reader pipes pr n =
          ⟨pr.table ++ [(n, pr.nextId)], pr.nextId + 1⟩ := by
        unfold start_pipe_reader
        rw [if_neg hreg, if_pos hpipe]
      have hl2 : (lookupKey
          (⟨pr.table ++ [(n, pr.nextId)], pr.nextId + 1⟩ : PipeReaders).table n).isSome
            = true := by
        simp [lookupKey_append_single_self pr.table n pr.nextId hnone]
      have h2 : start_pipe_reader pipes (start_pipe_reader pipes pr n) n =
          start_pipe_reader pipes pr n := by
        calc start_pipe_reader pipes (start_pipe_reader pipes pr n) n
            = start_pipe_reader pipes ⟨pr.table ++ [(n, pr.nextId)], pr.nextId + 1⟩ n := by
              rw [h1]
          _ = ⟨pr.table ++ [(n, pr.nextId)], pr.nextId + 1⟩ := by
              unfold start_pipe_reader
              rw [if_pos hl2]
          _ = start_pipe_reader pipes pr n := h1.symm
      refine ⟨h2, fun hc => absurd hc hreg, fun _ => ?_⟩
      rw [h2, h1]
      have hz := countKey_eq_zero_of_lookup_none pr.table n hnone
      have := countKey_append_single_self pr.table n pr.nextId
      simp only [this, hz]
    · have h1 : start_pipe_reader pipes pr n = pr := by
        unfold start_pipe_reader
        rw [if_neg hreg, if_neg hpipe]
      refine ⟨by rw [h1, h1], fun hc => absurd hc hreg, fun hc => absurd hc hpipe⟩

/-- Witness for c9_start_pipe_reader_idempotent at a concrete table. -/
theorem c9_start_pipe_reader_idempotent_witness :
    countKey (⟨[], 0⟩ : PipeReaders).table "w" ≤ 1
    ∧ (start_pipe_reader ["w"] (start_pipe_reader ["w"] ⟨[], 0⟩ "w") "w"
          = start_pipe_reader ["w"] ⟨[], 0⟩ "w"
      ∧ ((lookupKey (⟨[], 0⟩ : PipeReaders).table "w").isSome = true →
          start_pipe_reader ["w"] ⟨[], 0⟩ "w" = ⟨[], 0⟩)
      ∧ ((["w"] : List String).contains "w" = true →
          countKey (start_pipe_reader ["w"] (start_pipe_reader ["w"] ⟨[], 0⟩ "w") "w").table
            "w" = 1)) :=
  ⟨by decide, c9_start_pipe_reader_idempotent ["w"] ⟨[], 0⟩ "w" (by decide)⟩

-- ─────────────────────────────────────────────────────────────────────
-- Registry-membership lemmas for the exec-marker merge
-- ─────────────────────────────────────────────────────────────────────

theorem lookupKey_append_of_isSome {α : Type} (l1 l2 : List (String × α)) (k : String)
    (h : (lookupKey l1 k).isSome = true) : lookupKey (l1 ++ l2) k = lookupKey l1 k := by
  induction l1 with
  | nil => simp [lookupKey] at h
  | cons p rest ih =>
      by_cases hk : p.1 = k
      · simp [lookupKey, hk]
      · simp [lookupKey, hk] at h ⊢
        exact ih h

theorem execMergeFold_mono (l : List (String × String)) :
    ∀ (acc : List (String × SessionInfo)) (n : String),
      (lookupKey acc n).isSome = true →
      (lookupKey (l.foldl execMergeStep acc) n).isSome = true := by
  induction l with
  | nil => intro acc n h; exact h
  | cons p rest ih =>
      intro acc n h
      simp only [List.foldl_cons]
      refine ih (execMergeStep acc p) n ?_
      unfold execMergeStep
      split
      · exact h
      · rw [lookupKey_append_of_isSome _ _ _ h]
        exact h

theorem execMergeFold_adds (l : List (String × String)) :
    ∀ (acc : List (String × SessionInfo)) (n : String),
      (lookupKey l n).isSome = true →
      (lookupKey (l.foldl execMergeStep acc) n).isSome = true := by
  induction l with
  | nil => intro acc n h; simp [lookupKey] at h
  | cons p rest ih =>
      intro acc n h
      simp only [List.foldl_cons]
      by_cases hk : p.1 = n
      · refine execMergeFold_mono rest (execMergeStep acc p) n ?_
        unfold execMergeStep
        split
        · rename_i hs
          rw [← hk]
          exact hs
        · rename_i hs
          rw [← hk]
          cases hx : lookupKey acc p.1 with
          | some v => rw [hx] at hs; simp at hs
          | none =>
              rw [lookupKey_append_single_self acc p.1 _ hx]
              rfl
      · rcases p with ⟨k, v⟩
        simp [lookupKey, hk] at h
        exact ih (execMergeStep acc (k, v)) n h

theorem lookup_mergedRegistry_of_bfile (pref : String) (sessions : List String)
    (env : List (String × String)) (bfiles : List (String × String)) (n : String)
    (h : (lookupKey bfiles n).isSome = true) :
    (lookupKey (mergedRegistry pref sessions env bfiles) n).isSome = true := by
  unfold mergedRegistry
  exact execMergeFold_adds bfiles _ n h

-- ─────────────────────────────────────────────────────────────────────
-- Projection lemmas for the state-updating helpers
-- ─────────────────────────────────────────────────────────────────────

theorem lastActive_ensure_session_dir (st : SysState) (n : String) :
    (ensure_session_dir st n).lastActive = st.lastActive := by
  unfold ensure_session_dir
  split <;> rfl

theorem backendFiles_ensure_session_dir (st : SysState) (n : String) :
    (ensure_session_dir st n).backendFiles = st.backendFiles := by
  unfold ensure_session_dir
  split <;> rfl

theorem active_ensure_worker_pipe (st : SysState) (n : String) :
    (ensure_worker_pipe st n).active = st.active := by
  unfold ensure_worker_pipe
  split <;> rfl

theorem lastActive_ensure_worker_pipe (st : SysState) (n : String) :
    (ensure_worker_pipe st n).lastActive = st.lastActive := by
  unfold ensure_worker_pipe
  split <;> rfl

theorem backendFiles_ensure_worker_pipe (st : SysState) (n : String) :
    (ensure_worker_pipe st n).backendFiles = st.backendFiles := by
  unfold ensure_worker_pipe
  split <;> rfl

theorem lastActive_set_pending (st : SysState) (n : String) (c : Int) :
    (set_pending st n c).lastActive = st.lastActive := by
  unfold set_pending ensure_session_dir
  split <;> rfl

theorem backendFiles_set_pending (st : SysState) (n : String) (c : Int) :
    (set_pending st n c).backendFiles = st.backendFiles := by
  unfold set_pending ensure_session_dir
  split <;> rfl

theorem active_send_reconcile (st : SysState) :
    (send_reconcile st).active = reconcileActive (get_registered_sessions st).1 st.active :=
  rfl

theorem lastActive_send_reconcile (st : SysState) :
    (send_reconcile st).lastActive = st.lastActive := rfl

-- ─────────────────────────────────────────────────────────────────────
-- C7: send failure modes
-- ─────────────────────────────────────────────────────────────────────

/-- C7 counterexample: an interactive worker whose tmux session exists but
whose claude process-name check fails is reported offline, yet
WorkerManager.send still returns true - ClaudeBackend.send only checks
session existence before issuing the keystrokes, not readiness. -/
theorem c7_counterexample :
    manager_is_online { st0 with tmuxSessions := ["claude-alice"], sendKeysOk := ["claude-alice"] } "alice" = false
    ∧ manager_send { st0 with tmuxSessions := ["claude-alice"], sendKeysOk := ["claude-alice"] } "alice" "hi" = true := by
  decide

/-- C7 (amended): Registry send(n, text) returns false, rather than raising,
whenever n is unknown (absent from the reconciled registry), and for an
interactive worker whenever its tmux session is gone; a worker that is
present but not ready (session alive, process-name check failing) is not
rejected - the keystrokes are delivered to whatever runs in the session. -/
theorem c7_send_failure_modes (st : SysState) (n msg : String) :
    (lookupKey (get_registered_sessions st).1 n = none → manager_send st n msg = false)
    ∧ (∀ info, lookupKey (get_registered_sessions st).1 n = some info →
        backendIsExec (resolveBackendName (normalize_backend info.backend)) = false →
        tmux_exists st (info.tmux.getD (st.tmuxPref ++ n)) = false →
        manager_send st n msg = false) := by
  constructor
  · intro h
    unfold manager_send
    rw [h]
  · intro info hreg hexec hgone
    unfold manager_send
    rw [hreg]
    dsimp only
    unfold manager_send_info backend_send
    rw [if_neg (by rw [hexec]; simp), hgone]
    rfl

/-- Witness for c7_send_failure_modes at a concrete state. -/
theorem c7_send_failure_modes_witness :
    (lookupKey (get_registered_sessions st0).1 "nobody" = none →
      manager_send st0 "nobody" "hi" = false)
    ∧ (∀ info, lookupKey (get_registered_sessions st0).1 "nobody" = some info →
        backendIsExec (resolveBackendName (normalize_backend info.backend)) = false →
        tmux_exists st0 (info.tmux.getD (st0.tmuxPref ++ "nobody")) = false →
        manager_send st0 "nobody" "hi" = false) :=
  c7_send_failure_modes st0 "nobody" "hi"

-- ─────────────────────────────────────────────────────────────────────
-- C8: restart refuses a running interactive worker without side effects
-- ─────────────────────────────────────────────────────────────────────

/-- C8 (confirmed): for an interactive worker whose tmux session exists and
whose process-name check reports the worker process running, restart returns
failure with the message "Worker is already running" and performs no
destructive action - the returned state differs from the input state only by
the focus reconciliation of get_registered_sessions; in particular the tmux
session list, session directories, pending markers and pipes are unchanged. -/
theorem c8_restart_already_running (st : SysState) (name t : String) (info : SessionInfo)
    (hreg : lookupKey (get_registered_sessions st).1 name = some info)
    (hbackend : backendIsExec (resolveBackendName
        (get_worker_backend (get_registered_sessions st).2 name info)) = false)
    (htmux : info.tmux = some t)
    (hexists : tmux_exists st t = true)
    (hrun : is_claude_running st t = true) :
    restart st name = some (false, some "Worker is already running",
        (get_registered_sessions st).2)
    ∧ (get_registered_sessions st).2.tmuxSessions = st.tmuxSessions
    ∧ (get_registered_sessions st).2.sessionDirs = st.sessionDirs
    ∧ (get_registered_sessions st).2.pendingFiles = st.pendingFiles
    ∧ (get_registered_sessions st).2.pipes = st.pipes := by
  refine ⟨?_, rfl, rfl, rfl, rfl⟩
  unfold restart
  dsimp only
  rw [hreg]
  dsimp only
  rw [if_neg (by rw [hbackend]; simp), htmux]
  dsimp only
  have hex1 : tmux_exists (get_registered_sessions st).2 t = true := hexists
  have hrun1 : is_claude_running (get_registered_sessions st).2 t = true := hrun
  rw [if_neg (by rw [hex1]; simp), if_pos hrun1]

/-- Witness for c8_restart_already_running at a concrete state. -/
theorem c8_restart_already_running_witness :
    (lookupKey (get_registered_sessions { st0 with tmuxSessions := ["claude-alice"], claudeRunning := ["claude-alice"] }).1 "alice"
        = some ⟨some "claude-alice", "claude"⟩)
    ∧ (restart { st0 with tmuxSessions := ["claude-alice"], claudeRunning := ["claude-alice"] } "alice"
        = some (false, some "Worker is already running",
            (get_registered_sessions { st0 with tmuxSessions := ["claude-alice"], claudeRunning := ["claude-alice"] }).2)) := by
  constructor
  · decide
  · exact (c8_restart_already_running
      { st0 with tmuxSessions := ["claude-alice"], claudeRunning := ["claude-alice"] }
      "alice" "claude-alice" ⟨some "claude-alice", "claude"⟩
      (by decide) (by decide) rfl (by decide) (by decide)).1

-- ─────────────────────────────────────────────────────────────────────
-- C6: hire duplicate handling and focus persistence
-- ─────────────────────────────────────────────────────────────────────

theorem hireExecState_active (st : SysState) (name backend : String)
    (chatId : Option Int) :
    (hireExecState st name backend chatId).active = some name := by
  unfold hireExecState
  cases chatId with
  | none => simp [active_ensure_worker_pipe, active_ensure_session_dir]
  | some c =>
      dsimp only
      split
      · rw [active_set_pending]
        simp [active_ensure_worker_pipe, active_ensure_session_dir]
      · simp [active_ensure_worker_pipe, active_ensure_session_dir]

theorem hireExecState_lastActive (st : SysState) (name backend : String)
    (chatId : Option Int) :
    (hireExecState st name backend chatId).lastActive = some name := by
  unfold hireExecState
  cases chatId with
  | none => simp [lastActive_ensure_worker_pipe, lastActive_ensure_session_dir]
  | some c =>
      dsimp only
      split
      · rw [lastActive_set_pending]
        simp [lastActive_ensure_worker_pipe, lastActive_ensure_session_dir]
      · simp [lastActive_ensure_worker_pipe, lastActive_ensure_session_dir]

theorem hireExecState_marker (st : SysState) (name backend : String)
    (chatId : Option Int) :
    (lookupKey (hireExecState st name backend chatId).backendFiles name).isSome = true := by
  unfold hireExecState
  cases chatId with
  | none => simp [lookupKey_dictInsert_self]
  | some c =>
      dsimp only
      split
      · rw [backendFiles_set_pending]
        simp [lookupKey_dictInsert_self]
      · simp [lookupKey_dictInsert_self]

theorem hireTmuxState_active (st : SysState) (name backend : String) :
    (hireTmuxState st name backend).active = some name := by
  unfold hireTmuxState
  simp [active_ensure_worker_pipe, active_ensure_session_dir]

theorem hireTmuxState_lastActive (st : SysState) (name backend : String) :
    (hireTmuxState st name backend).lastActive = some name := by
  unfold hireTmuxState
  simp [lastActive_ensure_worker_pipe, lastActive_ensure_session_dir]

/-- C6 counterexample: with worker "alice" already present in the registry
through its exec backend-marker file, hire("alice", "codex", ...) succeeds
instead of failing - the exec-mode hire path performs no duplicate-name
check (it simply re-marks the worker and refocuses it). -/
theorem c6_counterexample :
    (lookupKey (get_registered_sessions { st0 with sessionDirs := ["alice"], backendFiles := [("alice", "codex")] }).1
        "alice").isSome = true
    ∧ (hire { st0 with sessionDirs := ["alice"], backendFiles := [("alice", "codex")] }
        "alice" "codex" (some 1)).1 = true := by
  decide

/-- C6 (amended): for a valid backend kind and a nonempty worker name,
hire(n, backend, chat_id) fails with an "already exists" error only on the
interactive path, and only when the tmux session for n already exists;
exec-mode hires always succeed regardless of existing registry entries.  On
every successful path the focus pointer is set to n and persisted (the
last-active file equals n as well). -/
theorem c6_hire (st : SysState) (name backend : String) (chatId : Option Int)
    (hvalid : is_valid_backend backend = true) (hname : name ≠ "") :
    (backendIsExec backend = true →
        (hire st name backend chatId).1 = true
        ∧ (hire st name backend chatId).2.2.active = some name
        ∧ (hire st name backend chatId).2.2.lastActive = some name)
    ∧ (backendIsExec backend = false →
        (tmux_exists st (st.tmuxPref ++ name) = true →
          hire st name backend chatId =
            (false, some ("Worker \x27" ++ name ++ "\x27 already exists"), st))
        ∧ (tmux_exists st (st.tmuxPref ++ name) = false → st.tmuxNewOk = true →
          (hire st name backend chatId).1 = true
          ∧ (hire st name backend chatId).2.2.active = some name
          ∧ (hire st name backend chatId).2.2.lastActive = some name)) := by
  constructor
  · intro hexec
    have hh : hire st name backend chatId =
        (true, none, send_reconcile (hireExecState st name backend chatId)) := by
      unfold hire
      rw [if_neg (by simp [hvalid]), if_pos hexec]
    refine ⟨by rw [hh], ?_, ?_⟩
    · rw [hh]
      dsimp only
      rw [active_send_reconcile, hireExecState_active]
      apply reconcileActive_keep _ _ hname
      apply lookup_mergedRegistry_of_bfile
      exact hireExecState_marker st name backend chatId
    · rw [hh]
      dsimp only
      rw [lastActive_send_reconcile, hireExecState_lastActive]
  · intro hexec
    constructor
    · intro hdup
      unfold hire
      rw [if_neg (by simp [hvalid]), if_neg (by simp [hexec]), if_pos hdup]
    · intro hfresh hnew
      have hh : hire st name backend chatId = (true, none, hireTmuxState st name backend) := by
        unfold hire
        rw [if_neg (by simp [hvalid]), if_neg (by simp [hexec]),
          if_neg (by simp [hfresh]), if_neg (by simp [hnew])]
      refine ⟨by rw [hh], ?_, ?_⟩
      · rw [hh]
        dsimp only
        exact hireTmuxState_active st name backend
      · rw [hh]
        dsimp only
        exact hireTmuxState_lastActive st name backend

/-- Witness for c6_hire at a concrete hire. -/
theorem c6_hire_witness :
    (is_valid_backend "codex" = true ∧ "alice" ≠ "")
    ∧ ((backendIsExec "codex" = true →
        (hire st0 "alice" "codex" (some 1)).1 = true
        ∧ (hire st0 "alice" "codex" (some 1)).2.2.active = some "alice"
        ∧ (hire st0 "alice" "codex" (some 1)).2.2.lastActive = some "alice")
      ∧ (backendIsExec "codex" = false →
        (tmux_exists st0 (st0.tmuxPref ++ "alice") = true →
          hire st0 "alice" "codex" (some 1) =
            (false, some ("Worker \x27" ++ "alice" ++ "\x27 already exists"), st0))
        ∧ (tmux_exists st0 (st0.tmuxPref ++ "alice") = false → st0.tmuxNewOk = true →
          (hire st0 "alice" "codex" (some 1)).1 = true
          ∧ (hire st0 "alice" "codex" (some 1)).2.2.active = some "alice"
          ∧ (hire st0 "alice" "codex" (some 1)).2.2.lastActive = some "alice"))) :=
  ⟨⟨by decide, by decide⟩, c6_hire st0 "alice" "codex" (some 1) (by decide) (by decide)⟩

-- ─────────────────────────────────────────────────────────────────────
-- C10: reply-target parsing
-- ─────────────────────────────────────────────────────────────────────

theorem all_takeWhile_self {α : Type} (p : α → Bool) (l : List α) :
    (l.takeWhile p).all p = true := by
  induction l with
  | nil => rfl
  | cons c rest ih =>
      by_cases hc : p c
      · simp [List.takeWhile, hc, ih]
      · simp [List.takeWhile, hc]

theorem parse_worker_prefixFn_some (reg : List (String × SessionInfo)) (text : String)
    (w : String) (h : (parse_worker_prefixFn reg text).1 = some w) :
    (lookupKey reg w).isSome = true
    ∧ ∃ ws nameRun rest, text.data = ws ++ nameRun ++ ':' :: rest
        ∧ ws.all isWsChar = true ∧ nameRun ≠ []
        ∧ nameRun.all isNameChar = true
        ∧ String.mk (nameRun.map Char.toLower) = w := by
  by_cases htext : text = ""
  · simp [parse_worker_prefixFn, htext] at h
  · simp only [parse_worker_prefixFn, if_neg htext] at h
    by_cases hrun : ((text.data.dropWhile isWsChar).takeWhile isNameChar).isEmpty = true
    · rw [if_pos hrun] at h
      simp at h
    · rw [if_neg hrun] at h
      cases hafter : (text.data.dropWhile isWsChar).dropWhile isNameChar with
      | nil => rw [hafter] at h; simp at h
      | cons c rest =>
          rw [hafter] at h
          dsimp only at h
          by_cases hc : c = ':'
          · rw [if_pos hc] at h
            subst hc
            by_cases hmem : (lookupKey reg
                (String.mk (((text.data.dropWhile isWsChar).takeWhile isNameChar).map
                  Char.toLower))).isSome = true
            · rw [if_pos hmem] at h
              dsimp only at h
              injection h with hw
              constructor
              · rw [← hw]
                exact hmem
              · refine ⟨text.data.takeWhile isWsChar,
                  (text.data.dropWhile isWsChar).takeWhile isNameChar, rest, ?_, ?_, ?_, ?_, hw⟩
                · rw [List.append_assoc]
                  rw [show ((text.data.dropWhile isWsChar).takeWhile isNameChar) ++
                      ':' :: rest = (text.data.dropWhile isWsChar).takeWhile isNameChar ++
                      (text.data.dropWhile isWsChar).dropWhile isNameChar from by rw [hafter]]
                  rw [List.takeWhile_append_dropWhile, List.takeWhile_append_dropWhile]
                · exact all_takeWhile_self isWsChar text.data
                · simpa using hrun
                · exact all_takeWhile_self isNameChar (text.data.dropWhile isWsChar)
            · rw [if_neg hmem] at h
              simp at h
          · rw [if_neg hc] at h
            simp at h

/-- C10 (confirmed): parse_reply_target yields a routing target only when the
replied-to message was sent by the bot and its text (or caption) begins,
after optional whitespace, with a "name:" prefix whose lower-cased name is a
currently-registered worker; in every other case it returns no target
together with the replied text, so reply routing can never address a name
outside the reconciled registry. -/
theorem c10_reply_target_registered (reg : List (String × SessionInfo)) (rm : ReplyMsg) :
    (∀ w, (parse_reply_target reg (some rm)).1 = some w →
        rm.fromIsBot = true
        ∧ (lookupKey reg w).isSome = true
        ∧ (parse_reply_target reg (some rm)).2 = replyTextOf rm
        ∧ ∃ ws nameRun rest, (replyTextOf rm).data = ws ++ nameRun ++ ':' :: rest
            ∧ ws.all isWsChar = true ∧ nameRun ≠ []
            ∧ nameRun.all isNameChar = true
            ∧ String.mk (nameRun.map Char.toLower) = w)
    ∧ ((parse_reply_target reg (some rm)).1 = none →
        (parse_reply_target reg (some rm)).2 = replyTextOf rm)
    ∧ parse_reply_target reg none = (none, "") := by
  refine ⟨?_, ?_, rfl⟩
  · intro w hw
    unfold parse_reply_target at hw ⊢
    dsimp only at hw ⊢
    by_cases hbot : rm.fromIsBot
    · rw [if_pos hbot] at hw ⊢
      cases hp : (parse_worker_prefixFn reg (replyTextOf rm)).1 with
      | none =>
          rw [hp] at hw
          dsimp only at hw
          exact absurd hw (by simp)
      | some w2 =>
          rw [hp] at hw
          dsimp only at hw
          injection hw with hw1
          subst hw1
          rcases parse_worker_prefixFn_some reg (replyTextOf rm) _ hp with ⟨hmem, hdec⟩
          exact ⟨hbot, hmem, rfl, hdec⟩
    · rw [if_neg hbot] at hw
      simp at hw
  · intro hnone
    unfold parse_reply_target at hnone ⊢
    dsimp only at hnone ⊢
    by_cases hbot : rm.fromIsBot
    · rw [if_pos hbot] at hnone ⊢
      cases hp : (parse_worker_prefixFn reg (replyTextOf rm)).1 with
      | none => rfl
      | some w2 => rw [hp] at hnone
    · rw [if_neg hbot]

/-- Witness for c10_reply_target_registered at a concrete reply. -/
theorem c10_reply_target_registered_witness :
    (∀ w, (parse_reply_target [("alice", ⟨some "claude-alice", "claude"⟩)]
          (some ⟨some "alice: done", none, true⟩)).1 = some w →
        (⟨some "alice: done", none, true⟩ : ReplyMsg).fromIsBot = true
        ∧ (lookupKey [("alice", (⟨some "claude-alice", "claude"⟩ : SessionInfo))] w).isSome = true
        ∧ (parse_reply_target [("alice", ⟨some "claude-alice", "claude"⟩)]
            (some ⟨some "alice: done", none, true⟩)).2
          = replyTextOf ⟨some "alice: done", none, true⟩
        ∧ ∃ ws nameRun rest,
            (replyTextOf ⟨some "alice: done", none, true⟩).data = ws ++ nameRun ++ ':' :: rest
            ∧ ws.all isWsChar = true ∧ nameRun ≠ []
            ∧ nameRun.all isNameChar = true
            ∧ String.mk (nameRun.map Char.toLower) = w)
    ∧ ((parse_reply_target [("alice", ⟨some "claude-alice", "claude"⟩)]
          (some ⟨some "alice: done", none, true⟩)).1 = none →
        (parse_reply_target [("alice", ⟨some "claude-alice", "claude"⟩)]
            (some ⟨some "alice: done", none, true⟩)).2
          = replyTextOf ⟨some "alice: done", none, true⟩)
    ∧ parse_reply_target [("alice", ⟨some "claude-alice", "claude"⟩)] none = (none, "") :=
  c10_reply_target_registered [("alice", ⟨some "claude-alice", "claude"⟩)]
    ⟨some "alice: done", none, true⟩

-- ─────────────────────────────────────────────────────────────────────
-- C4: dispatch precedence of the non-command message handler
-- ─────────────────────────────────────────────────────────────────────

theorem parse_at_mention_some (reg : List (String × SessionInfo)) (text : String)
    (n : String) (m : String) (h : parse_at_mention reg text = (some n, m)) :
    (lookupKey reg n).isSome = true := by
  unfold parse_at_mention at h
  cases hdata : text.data with
  | nil => rw [hdata] at h; simp at h
  | cons c0 rest =>
      rw [hdata] at h
      dsimp only at h
      by_cases hc0 : c0 = '@'
      · rw [if_pos hc0] at h
        by_cases hempty : (rest.takeWhile isNameChar).isEmpty = true
            ∨ ((rest.dropWhile isNameChar).takeWhile isWsChar).isEmpty = true
        · rw [if_pos hempty] at h
          simp at h
        · rw [if_neg hempty] at h
          cases hmsg : (if ((rest.dropWhile isNameChar).dropWhile isWsChar).isEmpty = false
              then some ((rest.dropWhile isNameChar).dropWhile isWsChar)
              else match ((rest.dropWhile isNameChar).takeWhile isWsChar).reverse with
                | c :: _ :: _ => some [c]
                | _ => none) with
          | none => rw [hmsg] at h; simp at h
          | some mm =>
              rw [hmsg] at h
              dsimp only at h
              by_cases hmem : (lookupKey reg
                  (String.mk ((rest.takeWhile isNameChar).map Char.toLower))).isSome = true
              · rw [if_pos hmem] at h
                injection h with h1 h2
                injection h1 with h1
                rw [← h1]
                exact hmem
              · rw [if_neg hmem] at h
                simp at h
      · rw [if_neg hc0] at h
        simp at h

theorem parse_reply_target_snd (reg : List (String × SessionInfo)) (rm : ReplyMsg) :
    (parse_reply_target reg (some rm)).2 = replyTextOf rm := by
  unfold parse_reply_target
  dsimp only
  by_cases hbot : rm.fromIsBot
  · rw [if_pos hbot]
    cases hp : (parse_worker_prefixFn reg (replyTextOf rm)).1 <;> rfl
  · rw [if_neg hbot]

theorem parse_worker_prefixFn_empty (reg : List (String × SessionInfo)) :
    parse_worker_prefixFn reg "" = (none, "") := by
  unfold parse_worker_prefixFn
  rw [if_pos rfl]

theorem parse_reply_target_some_imp (reg : List (String × SessionInfo)) (rm : ReplyMsg)
    (w : String) (h : (parse_reply_target reg (some rm)).1 = some w) :
    rm.fromIsBot = true
    ∧ (parse_worker_prefixFn reg (replyTextOf rm)).1 = some w
    ∧ replyTextOf rm ≠ "" := by
  unfold parse_reply_target at h
  dsimp only at h
  by_cases hbot : rm.fromIsBot
  · rw [if_pos hbot] at h
    cases hp : (parse_worker_prefixFn reg (replyTextOf rm)).1 with
    | none => rw [hp] at h; simp at h
    | some w2 =>
        rw [hp] at h
        dsimp only at h
        injection h with h1
        subst h1
        refine ⟨hbot, rfl, ?_⟩
        intro hempty
        rw [hempty, parse_worker_prefixFn_empty] at hp
        simp at hp
  · rw [if_neg hbot] at h
    simp at h

/-- C4 counterexample: a registered worker literally named "all" (creatable
externally as tmux session "claude-all") does not win the dispatch although
"@all hi" is an explicit @-mention of a registered worker: the broadcast
branch is tested first and the message is dispatched as a broadcast. -/
theorem c4_counterexample :
    parse_at_mention [("all", (⟨some "claude-all", "claude"⟩ : SessionInfo))] "@all hi"
        = (some "all", "hi")
    ∧ (handle_message_text [("all", (⟨some "claude-all", "claude"⟩ : SessionInfo))]
        (some "all") "@all hi" none).1 = Dispatch.broadcast "hi" := by
  decide

/-- C4 (amended): for every inbound non-command text message that is not an
@all broadcast form (text beginning, case-insensitively, with "@all " is
always dispatched as a broadcast first, even when a worker named all is
registered), the router resolves the target in this precedence order,
highest first: an explicit @name mention of a registered worker wins over
reply-to-a-worker-prefixed bot message, which wins over
reply-to-a-non-worker message (routed to the focused worker with the replied
text carried as context), which wins over plain default routing to the
focused worker.  The handler leaves the focus pointer at its reconciled
value; in particular a mention does not change a focus already naming a
registered worker. -/
theorem c4_dispatch_precedence (reg : List (String × SessionInfo))
    (active0 : Option String) (text : String) (replyTo : Option ReplyMsg)
    (hall : strStartsWith (lowerStr text) "@all " = false) :
    ((handle_message_text reg active0 text replyTo).2 = reconcileActive reg active0)
    ∧ (∀ a, active0 = some a → a ≠ "" → (lookupKey reg a).isSome = true →
        (handle_message_text reg active0 text replyTo).2 = some a)
    ∧ (∀ n m, parse_at_mention reg text = (some n, m) →
        (lookupKey reg n).isSome = true
        ∧ (handle_message_text reg active0 text replyTo).1 =
            Dispatch.toWorker n
              (if (parse_reply_target reg replyTo).2 ≠ "" then
                format_reply_context m (parse_reply_target reg replyTo).2
              else m) true)
    ∧ ((parse_at_mention reg text).1 = none →
        ∀ rm w, replyTo = some rm → (parse_reply_target reg replyTo).1 = some w →
        (lookupKey reg w).isSome = true
        ∧ (handle_message_text reg active0 text replyTo).1 =
            Dispatch.toWorker w
              (format_reply_context text (parse_reply_target reg replyTo).2) true)
    ∧ ((parse_at_mention reg text).1 = none →
        ∀ rm, replyTo = some rm → (parse_reply_target reg replyTo).1 = none →
        (parse_reply_target reg replyTo).2 ≠ "" →
        (handle_message_text reg active0 text replyTo).1 =
          route_to_activeD (reconcileActive reg active0)
            (format_reply_context text (parse_reply_target reg replyTo).2))
    ∧ ((parse_at_mention reg text).1 = none →
        (replyTo = none ∨ (parse_reply_target reg replyTo).2 = "") →
        (handle_message_text reg active0 text replyTo).1 =
          route_to_activeD (reconcileActive reg active0) text) := by
  have hsnd : (handle_message_text reg active0 text replyTo).2 =
      reconcileActive reg active0 := rfl
  refine ⟨hsnd, ?_, ?_, ?_, ?_, ?_⟩
  · intro a ha hne hmem
    rw [hsnd, ha]
    exact reconcileActive_keep reg a hne hmem
  · intro n m hm
    refine ⟨parse_at_mention_some reg text n m hm, ?_⟩
    unfold handle_message_text
    dsimp only
    rw [if_neg (by rw [hall]; simp), hm]
  · intro hm1 rm w hrm hw
    subst hrm
    rcases parse_reply_target_some_imp reg rm w hw with ⟨_, hpw, _⟩
    refine ⟨(parse_worker_prefixFn_some reg (replyTextOf rm) w hpw).1, ?_⟩
    have hpair : parse_at_mention reg text = (none, (parse_at_mention reg text).2) := by
      rw [← hm1]
    have hctx : (parse_reply_target reg (some rm)).2 = replyTextOf rm :=
      parse_reply_target_snd reg rm
    have hne : (parse_reply_target reg (some rm)).2 ≠ "" := by
      rw [hctx]
      exact (parse_reply_target_some_imp reg rm w hw).2.2
    unfold handle_message_text
    dsimp only
    rw [if_neg (by rw [hall]; simp), hpair]
    dsimp only
    rw [if_pos hne, hw]
  · intro hm1 rm hrm hnone hne
    subst hrm
    have hpair : parse_at_mention reg text = (none, (parse_at_mention reg text).2) := by
      rw [← hm1]
    unfold handle_message_text
    dsimp only
    rw [if_neg (by rw [hall]; simp), hpair]
    dsimp only
    rw [if_pos hne, hnone]
  · intro hm1 hcase
    have hpair : parse_at_mention reg text = (none, (parse_at_mention reg text).2) := by
      rw [← hm1]
    unfold handle_message_text
    dsimp only
    rw [if_neg (by rw [hall]; simp), hpair]
    dsimp only
    rcases hcase with hnone | hempty
    · subst hnone
      rfl
    · cases replyTo with
      | none => rfl
      | some rm =>
          dsimp only
          rw [if_neg (by rw [hempty]; simp)]

/-- Witness for c4_dispatch_precedence at a concrete message. -/
theorem c4_dispatch_precedence_witness :
    (strStartsWith (lowerStr "hello") "@all " = false)
    ∧ (((handle_message_text [("alice", (⟨some "claude-alice", "claude"⟩ : SessionInfo))]
          (some "alice") "hello" none).2
        = reconcileActive [("alice", (⟨some "claude-alice", "claude"⟩ : SessionInfo))]
            (some "alice"))
      ∧ (∀ a, (some "alice" : Option String) = some a → a ≠ "" →
          (lookupKey [("alice", (⟨some "claude-alice", "claude"⟩ : SessionInfo))] a).isSome
            = true →
          (handle_message_text [("alice", (⟨some "claude-alice", "claude"⟩ : SessionInfo))]
            (some "alice") "hello" none).2 = some a)
      ∧ (∀ n m, parse_at_mention [("alice", (⟨some "claude-alice", "claude"⟩ : SessionInfo))]
            "hello" = (some n, m) →
          (lookupKey [("alice", (⟨some "claude-alice", "claude"⟩ : SessionInfo))] n).isSome
            = true
          ∧ (handle_message_text [("alice", (⟨some "claude-alice", "claude"⟩ : SessionInfo))]
              (some "alice") "hello" none).1 =
            Dispatch.toWorker n
              (if (parse_reply_target [("alice", (⟨some "claude-alice", "claude"⟩ : SessionInfo))]
                  none).2 ≠ "" then
                format_reply_context m
                  (parse_reply_target
                    [("alice", (⟨some "claude-alice", "claude"⟩ : SessionInfo))] none).2
              else m) true)
      ∧ ((parse_at_mention [("alice", (⟨some "claude-alice", "claude"⟩ : SessionInfo))]
            "hello").1 = none →
          ∀ rm w, (none : Option ReplyMsg) = some rm →
          (parse_reply_target [("alice", (⟨some "claude-alice", "claude"⟩ : SessionInfo))]
            none).1 = some w →
          (lookupKey [("alice", (⟨some "claude-alice", "claude"⟩ : SessionInfo))] w).isSome
            = true
          ∧ (handle_message_text [("alice", (⟨some "claude-alice", "claude"⟩ : SessionInfo))]
              (some "alice") "hello" none).1 =
            Dispatch.toWorker w
              (format_reply_context "hello"
                (parse_reply_target [("alice", (⟨some "claude-alice", "claude"⟩ : SessionInfo))]
                  none).2) true)
      ∧ ((parse_at_mention [("alice", (⟨some "claude-alice", "claude"⟩ : SessionInfo))]
            "hello").1 = none →
          ∀ rm, (none : Option ReplyMsg) = some rm →
          (parse_reply_target [("alice", (⟨some "claude-alice", "claude"⟩ : SessionInfo))]
            none).1 = none →
          (parse_reply_target [("alice", (⟨some "claude-alice", "claude"⟩ : SessionInfo))]
            none).2 ≠ "" →
          (handle_message_text [("alice", (⟨some "claude-alice", "claude"⟩ : SessionInfo))]
              (some "alice") "hello" none).1 =
            route_to_activeD
              (reconcileActive [("alice", (⟨some "claude-alice", "claude"⟩ : SessionInfo))]
                (some "alice"))
              (format_reply_context "hello"
                (parse_reply_target [("alice", (⟨some "claude-alice", "claude"⟩ : SessionInfo))]
                  none).2))
      ∧ ((parse_at_mention [("alice", (⟨some "claude-alice", "claude"⟩ : SessionInfo))]
            "hello").1 = none →
          ((none : Option ReplyMsg) = none ∨
            (parse_reply_target [("alice", (⟨some "claude-alice", "claude"⟩ : SessionInfo))]
              none).2 = "") →
          (handle_message_text [("alice", (⟨some "claude-alice", "claude"⟩ : SessionInfo))]
              (some "alice") "hello" none).1 =
            route_to_activeD
              (reconcileActive [("alice", (⟨some "claude-alice", "claude"⟩ : SessionInfo))]
                (some "alice")) "hello")) :=
  ⟨by decide, c4_dispatch_precedence [("alice", (⟨some "claude-alice", "claude"⟩ : SessionInfo))]
    (some "alice") "hello" none (by decide)⟩

-- ─────────────────────────────────────────────────────────────────────
-- C5: registry key uniqueness and the route_message specification
-- ─────────────────────────────────────────────────────────────────────

theorem mem_keys_dictInsert {α : Type} (l : List (String × α)) (k : String) (v : α)
    (a : String) (h : a ∈ keysOf (dictInsert l k v)) : a ∈ keysOf l ∨ a = k := by
  induction l with
  | nil =>
      simp [dictInsert, keysOf] at h
      exact Or.inr h
  | cons p rest ih =>
      by_cases hk : p.1 = k
      · have hd : dictInsert (p :: rest) k v = (p.1, v) :: rest := by
          simp [dictInsert, hk]
        rw [hd] at h
        rcases List.mem_cons.mp h with h1 | h2
        · exact Or.inl (List.mem_cons.mpr (Or.inl h1))
        · exact Or.inl (List.mem_cons.mpr (Or.inr h2))
      · have hd : dictInsert (p :: rest) k v = p :: dictInsert rest k v := by
          simp [dictInsert, hk]
        rw [hd] at h
        rcases List.mem_cons.mp h with h1 | h2
        · exact Or.inl (List.mem_cons.mpr (Or.inl h1))
        · rcases ih h2 with h3 | h4
          · exact Or.inl (List.mem_cons.mpr (Or.inr h3))
          · exact Or.inr h4

theorem nodupKeys_dictInsert {α : Type} (l : List (String × α)) (k : String) (v : α)
    (h : (keysOf l).Nodup) : (keysOf (dictInsert l k v)).Nodup := by
  induction l with
  | nil => simp [dictInsert, keysOf]
  | cons p rest ih =>
      have hcons : keysOf (p :: rest) = p.1 :: keysOf rest := rfl
      rw [hcons] at h
      have hnotin := (List.nodup_cons.mp h).1
      have hrest := (List.nodup_cons.mp h).2
      by_cases hk : p.1 = k
      · have hd : dictInsert (p :: rest) k v = (p.1, v) :: rest := by
          simp [dictInsert, hk]
        rw [hd]
        exact List.nodup_cons.mpr ⟨hnotin, hrest⟩
      · have hd : dictInsert (p :: rest) k v = p :: dictInsert rest k v := by
          simp [dictInsert, hk]
        rw [hd]
        refine List.nodup_cons.mpr ⟨?_, ih hrest⟩
        intro hmem
        rcases mem_keys_dictInsert rest k v p.1 hmem with h1 | h2
        · exact hnotin h1
        · exact hk h2

theorem nodupKeys_scan_fold (sessions : List String) (pref : String)
    (env : List (String × String)) :
    ∀ acc : List (String × SessionInfo), (keysOf acc).Nodup →
      (keysOf (sessions.foldl
        (fun acc line =>
          if line ≠ "" ∧ pref.data.isPrefixOf line.data then
            dictInsert acc (String.mk (line.data.drop pref.length))
              ⟨some line, normalize_backend ((lookupKey env line).getD "")⟩
          else acc) acc)).Nodup := by
  induction sessions with
  | nil => intro acc h; exact h
  | cons line rest ih =>
      intro acc h
      simp only [List.foldl_cons]
      apply ih
      split
      · exact nodupKeys_dictInsert acc _ _ h
      · exact h

theorem nodupKeys_merge_fold (bfiles : List (String × String)) :
    ∀ acc : List (String × SessionInfo), (keysOf acc).Nodup →
      (keysOf (bfiles.foldl execMergeStep acc)).Nodup := by
  induction bfiles with
  | nil => intro acc h; exact h
  | cons p rest ih =>
      intro acc h
      simp only [List.foldl_cons]
      apply ih
      unfold execMergeStep
      split
      · exact h
      · rename_i hs
        have hnone : lookupKey acc p.1 = none := by
          cases hx : lookupKey acc p.1 with
          | none => rfl
          | some v => rw [hx] at hs; simp at hs
        have hnot : p.1 ∉ keysOf acc := (lookupKey_none_iff_notMemKeys acc p.1).mp hnone
        have hkeys : keysOf (acc ++ [(p.1, (⟨none, stripStr p.2⟩ : SessionInfo))])
            = keysOf acc ++ [p.1] := by
          simp [keysOf]
        rw [hkeys]
        refine List.Nodup.append h (List.nodup_singleton _) ?_
        intro a ha hb
        rw [List.mem_singleton] at hb
        subst hb
        exact hnot ha

theorem nodupKeys_registry (st : SysState) :
    (keysOf (get_registered_sessions st).1).Nodup := by
  unfold get_registered_sessions mergedRegistry scan_tmux_sessions
  apply nodupKeys_merge_fold
  apply nodupKeys_scan_fold
  simp [keysOf]

theorem lookup_self_of_nodupKeys {α : Type} (l : List (String × α))
    (h : (keysOf l).Nodup) : ∀ p ∈ l, lookupKey l p.1 = some p.2 := by
  induction l with
  | nil => intro p hp; simp at hp
  | cons q rest ih =>
      intro p hp
      have hcons : keysOf (q :: rest) = q.1 :: keysOf rest := rfl
      rw [hcons] at h
      have hnotin := (List.nodup_cons.mp h).1
      have hrest := (List.nodup_cons.mp h).2
      rcases List.mem_cons.mp hp with hp1 | hp2
      · subst hp1
        simp [lookupKey]
      · have hne : q.1 ≠ p.1 := by
          intro he
          apply hnotin
          rw [he]
          exact List.mem_map_of_mem Prod.fst hp2
        have hlook : lookupKey (q :: rest) p.1 =
            if q.1 = p.1 then some q.2 else lookupKey rest p.1 := rfl
        rw [hlook, if_neg hne]
        exact ih hrest p hp2

theorem route_message_spec (st : SysState) (n text : String) (chatId : Int)
    (info : SessionInfo)
    (hreg : lookupKey (get_registered_sessions st).1 n = some info)
    (hon : manager_is_online_info st n info = true) :
    world (route_message st n text chatId).st = world st
    ∧ (route_message st n text chatId).attempts = [n]
    ∧ (route_message st n text chatId).sent =
        (if manager_send_info st n info = true then [n] else [])
    ∧ (route_message st n text chatId).replies =
        (if manager_send_info st n info = true then []
          else ["Could not send to " ++ capitalizeStr n ++ ". Try /relaunch."])
    ∧ (route_message st n text chatId).st.active =
        reconcileActive (get_registered_sessions st).1 st.active := by
  have hon1 : manager_is_online_info (get_registered_sessions st).2 n info = true := by
    rw [manager_is_online_info_congr (world_get_registered st) n info]
    exact hon
  have hw2 : world (set_pending (get_registered_sessions st).2 n chatId) = world st := by
    rw [world_set_pending, world_get_registered]
  have hsend2 : manager_send_info (set_pending (get_registered_sessions st).2 n chatId) n info
      = manager_send_info st n info := manager_send_info_congr hw2 n info
  have hrm : route_message st n text chatId =
      (if manager_send_info st n info = true then
        RunOut.mk (set_pending (get_registered_sessions st).2 n chatId) [] [n] [n]
      else
        RunOut.mk (clear_pending (set_pending (get_registered_sessions st).2 n chatId) n)
          ["Could not send to " ++ capitalizeStr n ++ ". Try /relaunch."] [] [n]) := by
    unfold route_message
    dsimp only
    rw [hreg]
    dsimp only
    rw [if_neg (by rw [hon1]; simp)]
    by_cases hs : manager_send_info st n info = true
    · rw [if_pos (by rw [hsend2]; exact hs), if_pos hs]
    · rw [if_neg (by rw [hsend2]; exact hs), if_neg hs]
  by_cases hs : manager_send_info st n info = true
  · rw [hrm, if_pos hs]
    refine ⟨hw2, rfl, by rw [if_pos hs], by rw [if_pos hs], ?_⟩
    rw [active_set_pending, active_get_registered]
  · rw [hrm, if_neg hs]
    refine ⟨?_, rfl, by rw [if_neg hs], by rw [if_neg hs], ?_⟩
    · rw [world_clear_pending]
      exact hw2
    · rw [active_clear_pending, active_set_pending, active_get_registered]

theorem routeAll_loop (stBase : SysState) (text : String) (chatId : Int)
    (l : List (String × SessionInfo)) :
    ∀ (out : RunOut) (sentTo : List String),
      (∀ p ∈ l, lookupKey (get_registered_sessions stBase).1 p.1 = some p.2) →
      world out.st = world stBase →
      out.st.active = reconcileActive (get_registered_sessions stBase).1 stBase.active →
      world (l.foldl (routeAllStep text chatId) (out, sentTo)).1.st = world stBase
      ∧ (l.foldl (routeAllStep text chatId) (out, sentTo)).1.st.active =
          reconcileActive (get_registered_sessions stBase).1 stBase.active
      ∧ (l.foldl (routeAllStep text chatId) (out, sentTo)).2 =
          sentTo ++ (l.filter (fun p => manager_is_online_info stBase p.1 p.2)).map Prod.fst
      ∧ (l.foldl (routeAllStep text chatId) (out, sentTo)).1.attempts =
          out.attempts ++
            (l.filter (fun p => manager_is_online_info stBase p.1 p.2)).map Prod.fst
      ∧ (l.foldl (routeAllStep text chatId) (out, sentTo)).1.sent =
          out.sent ++ (l.filter (fun p => manager_is_online_info stBase p.1 p.2 &&
            manager_send_info stBase p.1 p.2)).map Prod.fst
      ∧ (l.foldl (routeAllStep text chatId) (out, sentTo)).1.replies =
          out.replies ++ (l.filter (fun p => manager_is_online_info stBase p.1 p.2 &&
            !manager_send_info stBase p.1 p.2)).map
              (fun p => "Could not send to " ++ capitalizeStr p.1 ++ ". Try /relaunch.") := by
  induction l with
  | nil =>
      intro out sentTo _ hw ha
      simp only [List.foldl_nil, List.filter_nil, List.map_nil, List.append_nil]
      refine ⟨hw, ha, ?_, ?_, ?_, ?_⟩ <;> trivial
  | cons p rest ih =>
      intro out sentTo hmem hw ha
      simp only [List.foldl_cons]
      have honB : manager_is_online_info out.st p.1 p.2 =
          manager_is_online_info stBase p.1 p.2 := manager_is_online_info_congr hw p.1 p.2
      by_cases hon : manager_is_online_info stBase p.1 p.2 = true
      · have hstep : routeAllStep text chatId (out, sentTo) p =
            (RunOut.mk (route_message out.st p.1 text chatId).st
              (out.replies ++ (route_message out.st p.1 text chatId).replies)
              (out.sent ++ (route_message out.st p.1 text chatId).sent)
              (out.attempts ++ (route_message out.st p.1 text chatId).attempts),
              sentTo ++ [p.1]) := by
          unfold routeAllStep
          rw [if_pos (by rw [honB]; exact hon)]
        rw [hstep]
        have hregO : lookupKey (get_registered_sessions out.st).1 p.1 = some p.2 := by
          rw [registry_congr hw]
          exact hmem p (List.mem_cons_self p rest)
        have honO : manager_is_online_info out.st p.1 p.2 = true := by
          rw [honB]; exact hon
        obtain ⟨hw1, hat, hsent, hrep, hact⟩ :=
          route_message_spec out.st p.1 text chatId p.2 hregO honO
        have hsendB : manager_send_info out.st p.1 p.2 =
            manager_send_info stBase p.1 p.2 := manager_send_info_congr hw p.1 p.2
        have hw' : world (route_message out.st p.1 text chatId).st = world stBase := by
          rw [hw1, hw]
        have ha' : (route_message out.st p.1 text chatId).st.active =
            reconcileActive (get_registered_sessions stBase).1 stBase.active := by
          rw [hact, registry_congr hw, ha]
          exact reconcileActive_idem _ _
        obtain ⟨g1, g2, g3, g4, g5, g6⟩ :=
          ih (RunOut.mk (route_message out.st p.1 text chatId).st
              (out.replies ++ (route_message out.st p.1 text chatId).replies)
              (out.sent ++ (route_message out.st p.1 text chatId).sent)
              (out.attempts ++ (route_message out.st p.1 text chatId).attempts))
            (sentTo ++ [p.1])
            (fun q hq => hmem q (List.mem_cons_of_mem p hq)) hw' ha'
        refine ⟨g1, g2, ?_, ?_, ?_, ?_⟩
        · rw [g3]
          simp [List.filter_cons, hon]
        · rw [g4]
          dsimp only
          rw [hat]
          simp [List.filter_cons, hon]
        · rw [g5]
          dsimp only
          rw [hsent, hsendB]
          by_cases hsb : manager_send_info stBase p.1 p.2 = true
          · rw [if_pos hsb]
            simp [List.filter_cons, hon, hsb]
          · rw [if_neg hsb]
            simp at hsb
            simp [List.filter_cons, hon, hsb]
        · rw [g6]
          dsimp only
          rw [hrep, hsendB]
          by_cases hsb : manager_send_info stBase p.1 p.2 = true
          · rw [if_pos hsb]
            simp [List.filter_cons, hon, hsb]
          · rw [if_neg hsb]
            simp at hsb
            simp [List.filter_cons, hon, hsb]
      · have hstep : routeAllStep text chatId (out, sentTo) p = (out, sentTo) := by
          unfold routeAllStep
          rw [if_neg (by rw [honB]; exact hon)]
        rw [hstep]
        obtain ⟨g1, g2, g3, g4, g5, g6⟩ := ih out sentTo
          (fun q hq => hmem q (List.mem_cons_of_mem p hq)) hw ha
        have honF : manager_is_online_info stBase p.1 p.2 = false := by
          cases hx : manager_is_online_info stBase p.1 p.2 with
          | false => rfl
          | true => exact absurd hx hon
        refine ⟨g1, g2, ?_, ?_, ?_, ?_⟩
        · rw [g3]; simp [List.filter_cons, honF]
        · rw [g4]; simp [List.filter_cons, honF]
        · rw [g5]; simp [List.filter_cons, honF]
        · rw [g6]; simp [List.filter_cons, honF]

/-- C5 counterexample: an @all broadcast over {alice, bob, carol} with carol
offline delivers to exactly alice and bob, but produces no reply at all:
the failure against the offline worker is not reported to the operator
(offline workers are silently skipped). -/
theorem c5_counterexample :
    manager_is_online { st0 with tmuxSessions := ["claude-alice", "claude-bob", "claude-carol"], claudeRunning := ["claude-alice", "claude-bob"], sendKeysOk := ["claude-alice", "claude-bob", "claude-carol"] } "carol" = false
    ∧ (route_to_all { st0 with tmuxSessions := ["claude-alice", "claude-bob", "claude-carol"], claudeRunning := ["claude-alice", "claude-bob"], sendKeysOk := ["claude-alice", "claude-bob", "claude-carol"] } "hi" 1).2 = ["alice", "bob"]
    ∧ (route_to_all { st0 with tmuxSessions := ["claude-alice", "claude-bob", "claude-carol"], claudeRunning := ["claude-alice", "claude-bob"], sendKeysOk := ["claude-alice", "claude-bob", "claude-carol"] } "hi" 1).1.sent = ["alice", "bob"]
    ∧ (route_to_all { st0 with tmuxSessions := ["claude-alice", "claude-bob", "claude-carol"], claudeRunning := ["claude-alice", "claude-bob"], sendKeysOk := ["claude-alice", "claude-bob", "claude-carol"] } "hi" 1).1.replies = [] := by
  decide

/-- C5 (amended): for an @all broadcast over a non-empty registry, a
route_message send is attempted for exactly the currently-online workers in
enumeration order, whatever each individual send's outcome (a failure
against one worker does not prevent the attempts against the others); the
successful deliveries are exactly the online workers whose backend send
succeeded; the operator replies consist of one "Could not send" report per
online worker whose send failed, plus "No one's online to share with." when
no worker was online - an offline worker among online ones is silently
skipped, not reported; the focus pointer is left at its reconciled value and
the external world is unchanged. -/
theorem c5_broadcast (st : SysState) (text : String) (chatId : Int)
    (hne : (get_registered_sessions st).1 ≠ []) :
    (route_to_all st text chatId).2 =
      ((get_registered_sessions st).1.filter
        (fun p => manager_is_online_info st p.1 p.2)).map Prod.fst
    ∧ (route_to_all st text chatId).1.attempts =
      ((get_registered_sessions st).1.filter
        (fun p => manager_is_online_info st p.1 p.2)).map Prod.fst
    ∧ (route_to_all st text chatId).1.sent =
      ((get_registered_sessions st).1.filter
        (fun p => manager_is_online_info st p.1 p.2 &&
          manager_send_info st p.1 p.2)).map Prod.fst
    ∧ (route_to_all st text chatId).1.replies =
      ((get_registered_sessions st).1.filter
        (fun p => manager_is_online_info st p.1 p.2 &&
          !manager_send_info st p.1 p.2)).map
        (fun p => "Could not send to " ++ capitalizeStr p.1 ++ ". Try /relaunch.")
      ++ (if ((get_registered_sessions st).1.filter
            (fun p => manager_is_online_info st p.1 p.2)) = [] then
          ["No one\x27s online to share with."] else [])
    ∧ (route_to_all st text chatId).1.st.active =
        reconcileActive (get_registered_sessions st).1 st.active
    ∧ world (route_to_all st text chatId).1.st = world st := by
  have hmem := lookup_self_of_nodupKeys (get_registered_sessions st).1 (nodupKeys_registry st)
  obtain ⟨g1, g2, g3, g4, g5, g6⟩ := routeAll_loop st text chatId (get_registered_sessions st).1
    (RunOut.mk (get_registered_sessions st).2 [] [] []) [] hmem (world_get_registered st)
    (active_get_registered st)
  dsimp only at g3 g4 g5 g6
  simp only [List.nil_append] at g3 g4 g5 g6
  by_cases hfe : ((get_registered_sessions st).1.filter
      (fun p => manager_is_online_info st p.1 p.2)) = []
  · have hres2 : (List.foldl (routeAllStep text chatId)
        (RunOut.mk (get_registered_sessions st).2 [] [] [], [])
        (get_registered_sessions st).1).2 = [] := by
      rw [g3, hfe]
      rfl
    have hrt : route_to_all st text chatId =
        (RunOut.mk
          (List.foldl (routeAllStep text chatId)
            (RunOut.mk (get_registered_sessions st).2 [] [] [], [])
            (get_registered_sessions st).1).1.st
          ((List.foldl (routeAllStep text chatId)
            (RunOut.mk (get_registered_sessions st).2 [] [] [], [])
            (get_registered_sessions st).1).1.replies
            ++ ["No one\x27s online to share with."])
          (List.foldl (routeAllStep text chatId)
            (RunOut.mk (get_registered_sessions st).2 [] [] [], [])
            (get_registered_sessions st).1).1.sent
          (List.foldl (routeAllStep text chatId)
            (RunOut.mk (get_registered_sessions st).2 [] [] [], [])
            (get_registered_sessions st).1).1.attempts,
          (List.foldl (routeAllStep text chatId)
            (RunOut.mk (get_registered_sessions st).2 [] [] [], [])
            (get_registered_sessions st).1).2) := by
      unfold route_to_all
      dsimp only
      rw [if_neg (fun h => hne (List.isEmpty_iff.mp h)), if_pos (by rw [hres2]; rfl)]
    rw [hrt]
    refine ⟨?_, ?_, ?_, ?_, ?_, ?_⟩
    · dsimp only
      rw [hres2, hfe]
      rfl
    · dsimp only
      rw [g4]
    · dsimp only
      rw [g5]
    · dsimp only
      rw [g6, if_pos hfe]
    · dsimp only
      rw [g2]
    · dsimp only
      rw [g1]
  · have hres2ne : (List.foldl (routeAllStep text chatId)
        (RunOut.mk (get_registered_sessions st).2 [] [] [], [])
        (get_registered_sessions st).1).2 ≠ [] := by
      rw [g3]
      intro hcon
      exact hfe (List.map_eq_nil_iff.mp hcon)
    have hrt : route_to_all st text chatId =
        List.foldl (routeAllStep text chatId)
          (RunOut.mk (get_registered_sessions st).2 [] [] [], [])
          (get_registered_sessions st).1 := by
      unfold route_to_all
      dsimp only
      rw [if_neg (fun h => hne (List.isEmpty_iff.mp h)),
        if_neg (fun h => hres2ne (List.isEmpty_iff.mp h))]
    rw [hrt]
    exact ⟨g3, g4, g5, by rw [g6, if_neg hfe]; simp, g2, g1⟩

/-- Witness for c5_broadcast at a concrete registry with one online exec
worker. -/
theorem c5_broadcast_witness :
    ((get_registered_sessions { st0 with sessionDirs := ["bob"], backendFiles := [("bob", "codex")], adapterOk := ["codex"] }).1 ≠ [])
    ∧ ((route_to_all { st0 with sessionDirs := ["bob"], backendFiles := [("bob", "codex")], adapterOk := ["codex"] } "hi" 1).2 =
        ((get_registered_sessions { st0 with sessionDirs := ["bob"], backendFiles := [("bob", "codex")], adapterOk := ["codex"] }).1.filter
          (fun p => manager_is_online_info { st0 with sessionDirs := ["bob"], backendFiles := [("bob", "codex")], adapterOk := ["codex"] } p.1 p.2)).map Prod.fst
      ∧ (route_to_all { st0 with sessionDirs := ["bob"], backendFiles := [("bob", "codex")], adapterOk := ["codex"] } "hi" 1).1.attempts =
        ((get_registered_sessions { st0 with sessionDirs := ["bob"], backendFiles := [("bob", "codex")], adapterOk := ["codex"] }).1.filter
          (fun p => manager_is_online_info { st0 with sessionDirs := ["bob"], backendFiles := [("bob", "codex")], adapterOk := ["codex"] } p.1 p.2)).map Prod.fst
      ∧ (route_to_all { st0 with sessionDirs := ["bob"], backendFiles := [("bob", "codex")], adapterOk := ["codex"] } "hi" 1).1.sent =
        ((get_registered_sessions { st0 with sessionDirs := ["bob"], backendFiles := [("bob", "codex")], adapterOk := ["codex"] }).1.filter
          (fun p => manager_is_online_info { st0 with sessionDirs := ["bob"], backendFiles := [("bob", "codex")], adapterOk := ["codex"] } p.1 p.2 &&
            manager_send_info { st0 with sessionDirs := ["bob"], backendFiles := [("bob", "codex")], adapterOk := ["codex"] } p.1 p.2)).map Prod.fst
      ∧ (route_to_all { st0 with sessionDirs := ["bob"], backendFiles := [("bob", "codex")], adapterOk := ["codex"] } "hi" 1).1.replies =
        ((get_registered_sessions { st0 with sessionDirs := ["bob"], backendFiles := [("bob", "codex")], adapterOk := ["codex"] }).1.filter
          (fun p => manager_is_online_info { st0 with sessionDirs := ["bob"], backendFiles := [("bob", "codex")], adapterOk := ["codex"] } p.1 p.2 &&
            !manager_send_info { st0 with sessionDirs := ["bob"], backendFiles := [("bob", "codex")], adapterOk := ["codex"] } p.1 p.2)).map
          (fun p => "Could not send to " ++ capitalizeStr p.1 ++ ". Try /relaunch.")
        ++ (if ((get_registered_sessions { st0 with sessionDirs := ["bob"], backendFiles := [("bob", "codex")], adapterOk := ["codex"] }).1.filter
              (fun p => manager_is_online_info { st0 with sessionDirs := ["bob"], backendFiles := [("bob", "codex")], adapterOk := ["codex"] } p.1 p.2)) = [] then
            ["No one\x27s online to share with."] else [])
      ∧ (route_to_all { st0 with sessionDirs := ["bob"], backendFiles := [("bob", "codex")], adapterOk := ["codex"] } "hi" 1).1.st.active =
          reconcileActive (get_registered_sessions { st0 with sessionDirs := ["bob"], backendFiles := [("bob", "codex")], adapterOk := ["codex"] }).1
            ({ st0 with sessionDirs := ["bob"], backendFiles := [("bob", "codex")], adapterOk := ["codex"] } : SysState).active
      ∧ world (route_to_all { st0 with sessionDirs := ["bob"], backendFiles := [("bob", "codex")], adapterOk := ["codex"] } "hi" 1).1.st =
          world { st0 with sessionDirs := ["bob"], backendFiles := [("bob", "codex")], adapterOk := ["codex"] }) :=
  ⟨by decide, c5_broadcast { st0 with sessionDirs := ["bob"], backendFiles := [("bob", "codex")], adapterOk := ["codex"] } "hi" 1 (by decide)⟩
